import Mathlib

/-!
Verification of the minimal MCP server (Starlette/JSON-RPC) request pipeline.

The development shallowly embeds `src/server.py` and `src/tools/registry.py`:
JSON values become an inductive `Json`, Python exceptions become an explicit
`PyErr` error type threaded through `Except`, and the HTTP endpoint becomes a
pure function from a request record to a response (or an uncaught fault).
Tool handlers perform I/O in the source (clock, network); the spec declares
their domain logic an external collaborator, so handlers are modelled as
opaque functions `Json → Except PyErr Json` supplied to the registry.
Calls of handlers are additionally recorded in a trace component so that
statements about side-effect execution can be made.

Python string primitives (`str.strip`, `str.lower`, `str.split`, `sorted`)
are re-implemented over `List Char` because the built-in `String` routines
do not reduce under the kernel.  `strip`/`lower` are restricted to their
ASCII behaviour, which is all the server's inputs exercise.
-/

/-! ## Python-style string primitives -/

/-- ASCII lower-casing of one character, as `str.lower` acts on ASCII. -/
def lowerChar (c : Char) : Char :=
  if 65 ≤ c.toNat && c.toNat ≤ 90 then Char.ofNat (c.toNat + 32) else c

/-- Model of Python `str.lower` (ASCII fragment). -/
def pyLower (s : String) : String := ⟨s.data.map lowerChar⟩

/-- Python whitespace characters stripped by `str.strip()` (ASCII fragment). -/
def isPySpace (c : Char) : Bool :=
  c = ' ' || c = '\t' || c = '\n' || c = '\r' || c = '\x0b' || c = '\x0c'

/-- Model of Python `str.strip()` with no arguments. -/
def pyStrip (s : String) : String :=
  ⟨((s.data.dropWhile isPySpace).reverse.dropWhile isPySpace).reverse⟩

/-- Split a character list at every occurrence of `sep`, Python `str.split(sep)`. -/
def splitOnChar (sep : Char) : List Char → List (List Char)
  | [] => [[]]
  | c :: rest =>
    if c = sep then [] :: splitOnChar sep rest
    else
      match splitOnChar sep rest with
      | [] => [[c]]
      | h :: t => (c :: h) :: t

/-- Model of Python `str.split(",")`. -/
def pySplitComma (s : String) : List String :=
  (splitOnChar ',' s.data).map fun cs => ⟨cs⟩

/-- Helper for `str.split(" ", maxsplit=1)`: position of the first space. -/
def splitOnceSpaceAux : List Char → Option (List Char × List Char)
  | [] => none
  | c :: rest =>
    if c = ' ' then some ([], rest)
    else
      match splitOnceSpaceAux rest with
      | none => none
      | some (a, b) => some (c :: a, b)

/-- Model of Python `header.split(" ", maxsplit=1)`. -/
def splitOnceSpace (s : String) : List String :=
  match splitOnceSpaceAux s.data with
  | none => [s]
  | some (a, b) => [⟨a⟩, ⟨b⟩]

/-- Code-point lexicographic strict comparison (Python `<` on `str`). -/
def lexLtChars : List Char → List Char → Bool
  | [], [] => false
  | [], _ :: _ => true
  | _ :: _, [] => false
  | a :: as, b :: bs =>
    if a.toNat < b.toNat then true
    else if b.toNat < a.toNat then false
    else lexLtChars as bs

/-- Boolean `≤` on strings by code points, as Python compares `str`. -/
def strLeB (a b : String) : Bool := !(lexLtChars b.data a.data)

/-- Model of Python `sorted` on a list of strings (ascending). -/
def pySorted (l : List String) : List String :=
  List.insertionSort (fun a b => strLeB a b = true) l

/-- Boolean substring occurrence check over the underlying character lists. -/
def listIsPrefixB : List Char → List Char → Bool
  | [], _ => true
  | _ :: _, [] => false
  | n :: ns, h :: hs => n = h && listIsPrefixB ns hs

/-- Does `needle` occur contiguously inside `hay`? -/
def subListAt (needle : List Char) : List Char → Bool
  | [] => needle.isEmpty
  | c :: rest => listIsPrefixB needle (c :: rest) || subListAt needle rest

/-- `strContains hay needle` holds when `needle` is a substring of `hay`. -/
def strContains (hay needle : String) : Bool := subListAt needle.data hay.data

/-! ## JSON values and Python-truthiness -/

/-- JSON values as decoded by `json.loads`; Python `None` is `null`.
Numbers are modelled as integers, which covers every number the server or
the claims manipulate (request ids, error codes). -/
inductive Json where
  | null
  | bool (b : Bool)
  | num (n : Int)
  | str (s : String)
  | arr (elems : List Json)
  | obj (entries : List (String × Json))

/-- Python truthiness of a decoded JSON value. -/
def Json.truthy : Json → Bool
  | .null => false
  | .bool b => b
  | .num n => n != 0
  | .str s => s != ""
  | .arr xs => !xs.isEmpty
  | .obj kvs => !kvs.isEmpty

/-- Is the value `None` (the decoding of JSON `null`)? -/
def Json.isNull : Json → Bool
  | .null => true
  | _ => false

/-- Is the value a Python `dict` (a JSON object)? -/
def Json.isObjB : Json → Bool
  | .obj _ => true
  | _ => false

/-- Is the decoded value hashable — usable as the probe of a Python `in` /
`not in` test on a dict or set?  `json.loads` decodes arrays to `list` and
objects to `dict`, both unhashable; `None`, `bool`, `int` and `str` hash
fine. -/
def Json.hashableB : Json → Bool
  | .arr _ => false
  | .obj _ => false
  | _ => true

/-- Python type name of a decoded JSON value, as it appears in
`AttributeError` messages. -/
def Json.pyTypeName : Json → String
  | .null => "NoneType"
  | .bool _ => "bool"
  | .num _ => "int"
  | .str _ => "str"
  | .arr _ => "list"
  | .obj _ => "dict"

mutual
/-- Python `repr` of a decoded JSON value (string quoting approximated by
always using single quotes, as Python does for quote-free strings). -/
def Json.pyRepr : Json → String
  | .null => "None"
  | .bool b => if b then "True" else "False"
  | .num n => toString n
  | .str s => "\x27" ++ s ++ "\x27"
  | .arr xs => "[" ++ pyReprItems xs ++ "]"
  | .obj kvs => "\x7b" ++ pyReprEntries kvs ++ "\x7d"

/-- Comma-joined `repr`s of list items. -/
def pyReprItems : List Json → String
  | [] => ""
  | [x] => Json.pyRepr x
  | x :: y :: xs => Json.pyRepr x ++ ", " ++ pyReprItems (y :: xs)

/-- Comma-joined `repr`s of dict entries. -/
def pyReprEntries : List (String × Json) → String
  | [] => ""
  | [(k, v)] => "\x27" ++ k ++ "\x27: " ++ Json.pyRepr v
  | (k, v) :: e :: xs =>
    "\x27" ++ k ++ "\x27: " ++ Json.pyRepr v ++ ", " ++ pyReprEntries (e :: xs)
end

/-- Python `str()` of a decoded JSON value, used by f-string interpolation. -/
def Json.pyStr : Json → String
  | .str s => s
  | j => j.pyRepr

/-- Last binding of key `k` (later duplicate keys win, as in `json.loads`). -/
def lookupLast (kvs : List (String × Json)) (k : String) : Option Json :=
  kvs.foldl (fun acc kv => if kv.1 = k then some kv.2 else acc) none

/-- `payload.get(k, d)` on a dict: default only when the key is absent. -/
def jgetD (kvs : List (String × Json)) (k : String) (d : Json) : Json :=
  (lookupLast kvs k).getD d

/-- `payload.get(k)` on a dict: `None` when the key is absent. -/
def jget (kvs : List (String × Json)) (k : String) : Json :=
  jgetD kvs k .null

/-- Python `k in payload` on a dict. -/
def hasKey (kvs : List (String × Json)) (k : String) : Bool :=
  (lookupLast kvs k).isSome

/-- Does the value equal the string literal `"2.0"`?  Python `== "2.0"`. -/
def isStr20 : Json → Bool
  | .str s => s = "2.0"
  | _ => false

/-! ## Python exceptions -/

/-- The exceptions the embedded code can raise: `ValueError`, `KeyError`
(each carrying its message argument), `AttributeError` (from calling
`.get` on a non-dict) and `TypeError` (from a membership test whose probe
is unhashable). -/
inductive PyErr where
  | valueError (msg : String)
  | keyError (msg : String)
  | attributeError (msg : String)
  | typeError (msg : String)

/-- `value or {}` — Python `or` with an empty-dict right operand. -/
def py_or_empty (j : Json) : Json := if j.truthy then j else .obj []

/-- `value.get(k)`: succeeds on dicts, raises `AttributeError` otherwise. -/
def py_dict_get (j : Json) (k : String) : Except PyErr Json :=
  match j with
  | .obj kvs => .ok (jget kvs k)
  | other =>
    .error (.attributeError
      ("\x27" ++ other.pyTypeName ++ "\x27 object has no attribute \x27get\x27"))

/-- The hashing step of a Python `in` / `not in` membership test: before
any key comparison the probe is hashed, so a decoded JSON array (`list`)
or object (`dict`) raises `TypeError: unhashable type: ...` regardless of
the container's contents.  Hashable probes pass through. -/
def py_hash_check : Json → Except PyErr Unit
  | .arr _ => .error (.typeError "unhashable type: \x27list\x27")
  | .obj _ => .error (.typeError "unhashable type: \x27dict\x27")
  | _ => .ok ()

/-! ## Server constants and JSON-RPC envelope builders (`server.py`) -/

def DEFAULT_PROTOCOL_VERSION : String := "2025-06-18"

/-- The supported set, listed in sorted order (a `set` in the source). -/
def SUPPORTED_PROTOCOL_VERSIONS : List String :=
  ["2024-11-05", "2025-03-26", "2025-06-18"]

def SERVER_NAME : String := "simple-mcp-starlette-server"

def SERVER_VERSION : String := "0.1.0"

/-- `_jsonrpc_error`: the `data` key is added only when `data is not None`. -/
def jsonrpc_error (code : Int) (message : String) (requestId : Json)
    (data : Option Json) : Json :=
  .obj [("jsonrpc", .str "2.0"), ("id", requestId),
    ("error", .obj ([("code", .num code), ("message", .str message)] ++
      (match data with
       | some d => [("data", d)]
       | none => [])))]

/-- `_jsonrpc_result`. -/
def jsonrpc_result (result : Json) (requestId : Json) : Json :=
  .obj [("jsonrpc", .str "2.0"), ("id", requestId), ("result", result)]

/-! ## Tool registry (`tools/registry.py`) -/

/-- A registered tool.  The handler is the modelled behaviour of the Python
handler function on a decoded-JSON argument value: a result or a raised
exception. -/
structure ToolDefinition where
  name : String
  description : String
  input_schema : Json
  handler : Json → Except PyErr Json

/-- `_TOOL_REGISTRY`: insertion-ordered (Python dicts preserve insertion
order); the key of each entry is its `name` field, exactly as
`register_tool` stores it. -/
abbrev Registry : Type := List ToolDefinition

/-- `ToolDefinition.as_mcp_tool`. -/
def as_mcp_tool (td : ToolDefinition) : Json :=
  .obj [("name", .str td.name), ("description", .str td.description),
    ("inputSchema", td.input_schema)]

/-- `register_tool`: fatal `RuntimeError` on a duplicate name. -/
def register_tool (reg : Registry) (name description : String)
    (inputSchema : Json) (handler : Json → Except PyErr Json) :
    Except String Registry :=
  if (List.any reg fun td => td.name = name) then
    .error ("Tool already registered: " ++ name)
  else
    .ok (reg ++ [⟨name, description, inputSchema, handler⟩])

/-- Registered names in registration order (`_TOOL_REGISTRY.keys()`). -/
def registryKeys (reg : Registry) : List String :=
  reg.map fun td => td.name

/-- `_TOOL_REGISTRY[name]` on a string key; `None` result is impossible for
keys drawn from the registry. -/
def findTool (reg : Registry) (n : String) : Option ToolDefinition :=
  reg.find? fun td => td.name = n

/-- `list_tools`: tools sorted by name, rendered by `as_mcp_tool`. -/
def list_tools (reg : Registry) : List Json :=
  (pySorted (registryKeys reg)).filterMap fun n => (findTool reg n).map as_mcp_tool

/-- The key-comparison part of `name in _TOOL_REGISTRY`, after the probe
has passed the hashing step (`py_hash_check`): among hashable decoded
values only a string can equal a string key. -/
def lookup_tool (reg : Registry) (name : Json) : Option ToolDefinition :=
  match name with
  | .str s => findTool reg s
  | _ => none

/-- One recorded handler invocation: the tool's name and the argument
object the handler received. -/
abbrev ToolCall : Type := String × Json

/-- `call_tool`: `if name not in _TOOL_REGISTRY` first hashes `name`, so an
unhashable (array/object) name raises `TypeError`; a hashable unknown name
raises `KeyError`; otherwise the handler is applied to `arguments or {}`.
The second component records the handler invocation (the side effect) when
it happens. -/
def call_tool (reg : Registry) (name : Json) (arguments : Json) :
    Except PyErr Json × List ToolCall :=
  match py_hash_check name with
  | .error e => (.error e, [])
  | .ok _ =>
    match lookup_tool reg name with
    | none => (.error (.keyError ("Unknown tool: " ++ name.pyStr)), [])
    | some td => (td.handler (py_or_empty arguments), [(td.name, py_or_empty arguments)])

/-! ## Protocol negotiation (`_negotiate_protocol_version`) -/

/-- Tail of the unsupported-header message, shared by both `ValueError`
texts: `. Supported versions: ['2024-11-05', '2025-03-26', '2025-06-18'].` -/
def supportedVersionsTail : String :=
  ". Supported versions: [" ++
    String.intercalate ", "
      (List.map (fun v => "\x27" ++ v ++ "\x27")
        (pySorted SUPPORTED_PROTOCOL_VERSIONS)) ++ "]."

/-- Message of the `ValueError` for an unsupported header value. -/
def unsupportedHeaderMsg (v : String) : String :=
  "Unsupported MCP-Protocol-Version header: " ++ v ++ supportedVersionsTail

/-- Message of the `ValueError` for an unsupported `initialize` version. -/
def unsupportedInitMsg (v : String) : String :=
  "Unsupported initialize protocolVersion: " ++ v ++ supportedVersionsTail

/-- First phase of `_negotiate_protocol_version`: the header test.
`headers.get("mcp-protocol-version")` is `none` when absent, the raw value
otherwise; `if header_version:` is a truthiness test, so an empty value
falls through to the default. -/
def negotiate_header (headerVersion : Option String) : Except PyErr String :=
  match headerVersion with
  | some v =>
    if v ≠ "" then
      if v ∈ SUPPORTED_PROTOCOL_VERSIONS then .ok v
      else .error (.valueError (unsupportedHeaderMsg v))
    else .ok DEFAULT_PROTOCOL_VERSION
  | none => .ok DEFAULT_PROTOCOL_VERSION

/-- Second phase of `_negotiate_protocol_version` for `initialize`:
`if requested_version and requested_version not in ...: raise`;
`if requested_version: negotiated = requested_version`.  The `and` short-
circuits, so a falsy value skips the membership test entirely; a truthy
value is hashed by the test, so a (nonempty) array or object raises
`TypeError`; among hashable values only a string can be a member of the
supported set. -/
def negotiate_requested (rv : Json) (negotiated : String) : Except PyErr String :=
  if rv.truthy then
    match py_hash_check rv with
    | .error e => .error e
    | .ok _ =>
      match rv with
      | .str s =>
        if s ∈ SUPPORTED_PROTOCOL_VERSIONS then .ok s
        else .error (.valueError (unsupportedInitMsg rv.pyStr))
      | _ => .error (.valueError (unsupportedInitMsg rv.pyStr))
  else .ok negotiated

/-- `_negotiate_protocol_version`, composed from its two phases.
`(params or {}).get(...)` raises `AttributeError` when `params` is a
truthy non-dict, which propagates. -/
def negotiate_protocol_version (headerVersion : Option String)
    (method : String) (params : Json) : Except PyErr String :=
  match negotiate_header headerVersion with
  | .error e => .error e
  | .ok negotiated =>
    if method = "initialize" then
      match py_dict_get (py_or_empty params) "protocolVersion" with
      | .error e => .error e
      | .ok rv => negotiate_requested rv negotiated
    else .ok negotiated

/-! ## HTTP-level modelling -/

/-- A Starlette response: status, optional JSON body, and the headers the
code sets explicitly (`MCP-Protocol-Version`, `WWW-Authenticate`). -/
structure HttpResponse where
  status : Nat
  body : Option Json
  headers : List (String × String)

/-- Environment configuration (each field is `os.getenv(..., "")`). -/
structure Config where
  mcpAuthToken : String
  mcpAllowedOrigins : String
  mcpRequiredScope : String

/-- An inbound HTTP request to `/mcp`.  `body` is the outcome of
`await request.json()`: `.error ()` models a `json.JSONDecodeError`. -/
structure McpRequest where
  httpMethod : String
  baseUrl : String
  originHeader : Option String
  authorizationHeader : Option String
  protocolVersionHeader : Option String
  body : Except Unit Json

/-- `_allowed_origins`. -/
def allowed_origins (cfg : Config) : List String :=
  ((pySplitComma cfg.mcpAllowedOrigins).map pyStrip).filter fun o => o ≠ ""

/-- `_resource_metadata_url`. -/
def resource_metadata_url (req : McpRequest) : String :=
  req.baseUrl ++ "/.well-known/oauth-protected-resource/mcp"

/-- `_www_authenticate_header`; the `error`/`description` parts are appended
only when truthy, mirroring `if error:` / `if description:`. -/
def www_authenticate_header (cfg : Config) (req : McpRequest)
    (error : Option String) (description : Option String) : String :=
  String.intercalate ", "
    (["Bearer realm=\"mcp\"",
      "resource_metadata=\"" ++ resource_metadata_url req ++ "\""] ++
     (if pyStrip cfg.mcpRequiredScope ≠ "" then
        ["scope=\"" ++ pyStrip cfg.mcpRequiredScope ++ "\""] else []) ++
     (match error with
      | some e => if e ≠ "" then ["error=\"" ++ e ++ "\""] else []
      | none => []) ++
     (match description with
      | some d => if d ≠ "" then ["error_description=\"" ++ d ++ "\""] else []
      | none => []))

/-- `_bearer_error` (all call sites use the default `status_code=401`). -/
def bearer_error (cfg : Config) (req : McpRequest) (detail : String)
    (statusCode : Nat) (error : Option String) : HttpResponse :=
  ⟨statusCode, some (.obj [("error", .str detail)]),
   [("WWW-Authenticate", www_authenticate_header cfg req error (some detail))]⟩

/-- `_auth_error`. -/
def auth_error (statusCode : Nat) (detail : String) : HttpResponse :=
  ⟨statusCode, some (.obj [("error", .str detail)]), []⟩

/-- `_is_authorized`: `none` means authorized, `some r` is the short-circuit
response.  `request.headers.get("authorization")` yields `none` when the
header is absent; `if not header:` also catches a present empty value. -/
def is_authorized (cfg : Config) (req : McpRequest) : Option HttpResponse :=
  let expectedToken := pyStrip cfg.mcpAuthToken
  if expectedToken = "" then
    some (auth_error 500 "Server is not configured: MCP_AUTH_TOKEN is missing.")
  else
    let header := req.authorizationHeader.getD ""
    if header = "" then
      some (bearer_error cfg req "Missing Authorization header." 401 (some "invalid_token"))
    else
      match splitOnceSpace header with
      | [scheme, rest] =>
        if pyLower scheme ≠ "bearer" ∨ pyStrip rest = "" then
          some (bearer_error cfg req "Expected Authorization: Bearer <token>." 401
            (some "invalid_request"))
        else if pyStrip rest ≠ expectedToken then
          some (bearer_error cfg req "Invalid token." 401 (some "invalid_token"))
        else none
      | _ =>
        some (bearer_error cfg req "Expected Authorization: Bearer <token>." 401
          (some "invalid_request"))

/-! ## Method dispatch (`_handle_mcp_method`) -/

/-- The `initialize` result object. -/
def initResult (protocolVersion : String) : Json :=
  .obj [("protocolVersion", .str protocolVersion),
    ("capabilities", .obj [("tools", .obj [])]),
    ("serverInfo", .obj [("name", .str SERVER_NAME),
      ("version", .str SERVER_VERSION)])]

/-- The `tools/call` branch of `_handle_mcp_method`: the `try` block
extracting `name`/`arguments` and delegating to `call_tool`, with only
`KeyError` and `ValueError` caught; `str(KeyError(m))` is the `repr` of
`m`, hence the quoting of the `-32601` message.  `AttributeError` (from
`.get` on a truthy non-dict `params`) propagates. -/
def tools_call_branch (reg : Registry) (params : Json) (requestId : Json) :
    Except PyErr (Option Json) × List ToolCall :=
  match py_dict_get (py_or_empty params) "name" with
  | .error e => (.error e, [])
  | .ok name =>
    match py_dict_get (py_or_empty params) "arguments" with
    | .error e => (.error e, [])
    | .ok arguments =>
      match call_tool reg name arguments with
      | (.ok result, tr) => (.ok (some (jsonrpc_result result requestId)), tr)
      | (.error (.keyError m), tr) =>
        (.ok (some (jsonrpc_error (-32601) ("\x27" ++ m ++ "\x27") requestId none)), tr)
      | (.error (.valueError m), tr) =>
        (.ok (some (jsonrpc_error (-32602) "Invalid params" requestId (some (.str m)))), tr)
      | (.error e, tr) => (.error e, tr)

/-- `_handle_mcp_method`: `.ok none` is the bodyless outcome
(`notifications/initialized`), `.ok (some p)` a JSON-RPC envelope, `.error`
an uncaught exception. -/
def handle_mcp_method (reg : Registry) (method : String) (params : Json)
    (requestId : Json) (protocolVersion : String) :
    Except PyErr (Option Json) × List ToolCall :=
  if method = "initialize" then
    (.ok (some (jsonrpc_result (initResult protocolVersion) requestId)), [])
  else if method = "notifications/initialized" then
    (.ok none, [])
  else if method = "tools/list" then
    (.ok (some (jsonrpc_result (.obj [("tools", .arr (list_tools reg))]) requestId)), [])
  else if method = "tools/call" then
    tools_call_branch reg params requestId
  else
    (.ok (some (jsonrpc_error (-32601) ("Method not found: " ++ method) requestId none)), [])

/-! ## The `/mcp` endpoint (`mcp_endpoint`) -/

/-- The part of `mcp_endpoint` following a successful body parse. -/
def handle_payload (reg : Registry) (headerVersion : Option String)
    (payload : Json) : Except PyErr HttpResponse × List ToolCall :=
  match payload with
  | .obj kvs =>
    if !hasKey kvs "method" && (hasKey kvs "result" || hasKey kvs "error") then
      (.ok ⟨202, none, []⟩, [])
    else
      let jsonrpc := jget kvs "jsonrpc"
      let method := jget kvs "method"
      let params := jgetD kvs "params" (.obj [])
      let requestId := jget kvs "id"
      match method, isStr20 jsonrpc with
      | .str m, true =>
        match negotiate_protocol_version headerVersion m params with
        | .error (.valueError d) =>
          (.ok ⟨400, some (jsonrpc_error (-32602) "Invalid params" requestId
            (some (.str d))), []⟩, [])
        | .error e => (.error e, [])
        | .ok protocolVersion =>
          if requestId.isNull then
            (.ok ⟨202, none, [("MCP-Protocol-Version", protocolVersion)]⟩, [])
          else
            match handle_mcp_method reg m params requestId protocolVersion with
            | (.error e, tr) => (.error e, tr)
            | (.ok none, tr) =>
              (.ok ⟨202, none, [("MCP-Protocol-Version", protocolVersion)]⟩, tr)
            | (.ok (some p), tr) =>
              (.ok ⟨200, some p, [("MCP-Protocol-Version", protocolVersion)]⟩, tr)
      | _, _ =>
        (.ok ⟨400, some (jsonrpc_error (-32600) "Invalid Request" requestId none), []⟩, [])
  | _ =>
    (.ok ⟨400, some (jsonrpc_error (-32600) "Invalid Request" .null
      (some (.str "Expected a JSON object."))), []⟩, [])

/-- The origin gate's condition:
`if origin and allowed_origins and origin not in allowed_origins`. -/
def origin_blockedB (cfg : Config) (req : McpRequest) : Bool :=
  let origin := req.originHeader.getD ""
  origin != "" && !(allowed_origins cfg).isEmpty && !((allowed_origins cfg).contains origin)

/-- `mcp_endpoint`: origin gate, auth gate, method check, body parse, then
`handle_payload`.  The trace component lists the tool-handler invocations
performed while answering. -/
def mcp_endpoint (reg : Registry) (cfg : Config) (req : McpRequest) :
    Except PyErr HttpResponse × List ToolCall :=
  let origin := req.originHeader.getD ""
  if origin_blockedB cfg req then
    (.ok ⟨403, some (.obj [("error", .str ("Forbidden origin: " ++ origin))]), []⟩, [])
  else
    match is_authorized cfg req with
    | some resp => (.ok resp, [])
    | none =>
      if req.httpMethod ≠ "POST" then (.ok ⟨405, none, []⟩, [])
      else
        match req.body with
        | .error _ =>
          (.ok ⟨400, some (jsonrpc_error (-32700) "Parse error" .null none), []⟩, [])
        | .ok payload => handle_payload reg req.protocolVersionHeader payload

/-! ## Concrete startup data

The two tools registered at startup (`tools/date_time.py`,
`tools/wiki_json.py`): names, descriptions and input schemas are taken
verbatim from the source.  The handlers perform I/O (clock, network) in the
source; the spec treats their domain logic as an external collaborator, so
sample registries carry stand-in handlers and every theorem that depends on
handler behaviour quantifies over it. -/

def dtDescription : String :=
  "Get the local date/time for a locale. Use an IANA timezone or known city alias."

def dtSchema : Json :=
  .obj [("type", .str "object"),
    ("properties", .obj [("locale", .obj [("type", .str "string"),
      ("description", .str ("Timezone/locale like \x27America/New_York\x27, " ++
        "\x27Europe/Copenhagen\x27, \x27New York\x27, or \x27Copenhagen\x27."))])]),
    ("required", .arr [.str "locale"]),
    ("additionalProperties", .bool false)]

def wikiDescription : String :=
  "Fetch plain-text article content from Wikipedia and return only the API `query.pages` JSON payload."

def wikiSchema : Json :=
  .obj [("type", .str "object"),
    ("properties", .obj [
      ("title", .obj [("type", .str "string"),
        ("description", .str "Wikipedia article title, e.g. \x27Earth\x27.")]),
      ("language", .obj [("type", .str "string"),
        ("description", .str "Wikipedia language code, e.g. \x27en\x27. Defaults to \x27en\x27.")])]),
    ("required", .arr [.str "title"]),
    ("additionalProperties", .bool false)]

/-- A handler stand-in returning an empty tool text response. -/
def stubHandler : Json → Except PyErr Json :=
  fun _ => .ok (.obj [("content", .arr [.obj [("type", .str "text"), ("text", .str "")]]),
    ("structuredContent", .obj []), ("isError", .bool false)])

/-- The registry after startup registration of the two tools. -/
def sampleRegistry : Registry :=
  [⟨"get_locale_date_time", dtDescription, dtSchema, stubHandler⟩,
   ⟨"get_wikipedia_pages_json", wikiDescription, wikiSchema, stubHandler⟩]

/-- The `name` field of a listed tool entry. -/
def tool_entry_name : Json → String
  | .obj kvs =>
    match jget kvs "name" with
    | .str s => s
    | _ => ""
  | _ => ""

/-- A handler stand-in that raises an argument-validation `ValueError`,
with the message `get_locale_date_time` raises on a missing locale. -/
def failingHandler : Json → Except PyErr Json :=
  fun _ => .error (.valueError "`locale` is required.")

/-- A registry whose single tool rejects its arguments. -/
def valReg : Registry := [⟨"get_locale_date_time", dtDescription, dtSchema, failingHandler⟩]

/-- A request presenting an empty `Authorization` header value. -/
def reqEmptyAuth : McpRequest := ⟨"POST", "http://testserver", none, some "", none, .error ()⟩

/-- A request whose bearer header has two spaces after the scheme. -/
def reqDoubleSpace : McpRequest :=
  ⟨"POST", "http://testserver", none, some "Bearer  abc", none, .error ()⟩

/-- A configuration expecting the token `abc`. -/
def cfgAbc : Config := ⟨"abc", "", ""⟩

/-- A request with no `Authorization` header at all. -/
def reqNoAuth : McpRequest := ⟨"POST", "http://testserver", none, none, none, .error ()⟩

/-- A request with a non-bearer scheme. -/
def reqTokenScheme : McpRequest :=
  ⟨"POST", "http://testserver", none, some "Token abc", none, .error ()⟩

/-- A request presenting the wrong bearer token. -/
def reqWrongToken : McpRequest :=
  ⟨"POST", "http://testserver", none, some "Bearer wrong", none, .error ()⟩

/-- The method names `_handle_mcp_method` recognizes. -/
def recognizedMethods : List String :=
  ["initialize", "notifications/initialized", "tools/list", "tools/call"]

/-- A handler outcome the `tools/call` `try` block can absorb: a result, a
`ValueError`, or a `KeyError` — anything but an unexpected
`AttributeError`/`TypeError`-like fault. -/
def benignResult : Except PyErr Json → Prop
  | .ok _ => True
  | .error (.valueError _) => True
  | .error (.keyError _) => True
  | .error (.attributeError _) => False
  | .error (.typeError _) => False

/-- Every registered handler returns a benign outcome on every argument. -/
def handlers_benign (reg : Registry) : Prop :=
  ∀ td, td ∈ reg → ∀ args, benignResult (td.handler args)

/-- The body's `params` field (after the `{}` default and the `or {}`
coercion of falsy values) is a dict — the condition under which the
dispatcher's `.get` calls cannot raise. -/
def params_field_okB (payload : Json) : Bool :=
  match payload with
  | .obj kvs => (py_or_empty (jgetD kvs "params" (.obj []))).isObjB
  | _ => true

/-- The membership tests the dispatcher can run on body-derived values all
hash successfully: for `tools/call` the `params.name` value is hashable,
and for `initialize` a truthy `params.protocolVersion` is hashable.  (An
array or object in those positions makes the Python `in` test raise an
uncaught `TypeError`.) -/
def membership_probes_okB (payload : Json) : Bool :=
  match payload with
  | .obj kvs =>
    match py_or_empty (jgetD kvs "params" (.obj [])) with
    | .obj kvsP =>
      (match jget kvs "method" with
       | .str m =>
         (m != "tools/call" || (jget kvsP "name").hashableB) &&
         (m != "initialize" || !(jget kvsP "protocolVersion").truthy ||
           (jget kvsP "protocolVersion").hashableB)
       | _ => true)
    | _ => true
  | _ => true

/-- The spec's three terminal outputs: a no-body acknowledgement, a result
envelope, or an error envelope — and in particular no uncaught fault. -/
def TerminalOk (r : Except PyErr HttpResponse) : Prop :=
  ∃ resp, r = .ok resp ∧
    (resp.body = none ∨
     (∃ res rid, resp.body = some (jsonrpc_result res rid)) ∨
     (∃ c msg rid d, resp.body = some (jsonrpc_error c msg rid d)))

/-- A configuration with a bearer token and no origin restriction. -/
def cfgOk : Config := ⟨"secret", "", ""⟩

/-- An authorized POST request to `/mcp` with the given version header and body. -/
def postReq (pv : Option String) (b : Except Unit Json) : McpRequest :=
  ⟨"POST", "http://testserver", none, some "Bearer secret", pv, b⟩

/-- `sampleRegistry` is what the two startup `register_tool` calls build. -/
theorem sampleRegistry_built :
    (register_tool [] "get_locale_date_time" dtDescription dtSchema stubHandler).bind
      (fun r => register_tool r "get_wikipedia_pages_json" wikiDescription wikiSchema
        stubHandler) = .ok sampleRegistry := rfl

/-! ## The code-point order used by `sorted` agrees with `String` order -/

/-- `lexLtChars` is the strict lexicographic list order on characters. -/
theorem lexLtChars_iff_lex :
    ∀ x y : List Char, lexLtChars x y = true ↔ List.Lex (· < ·) x y
  | [], [] => by
    constructor
    · intro h; simp [lexLtChars] at h
    · intro h; cases h
  | [], b :: bs => by
    constructor
    · intro _; exact List.Lex.nil
    · intro _; rfl
  | a :: as, [] => by
    constructor
    · intro h; simp [lexLtChars] at h
    · intro h; cases h
  | a :: as, b :: bs => by
    have ih := lexLtChars_iff_lex as bs
    have hab : ∀ c d : Char, c < d ↔ c.toNat < d.toNat := fun _ _ => Iff.rfl
    constructor
    · intro h
      simp only [lexLtChars] at h
      by_cases h1 : a.toNat < b.toNat
      · exact List.Lex.rel ((hab a b).mpr h1)
      · rw [if_neg h1] at h
        by_cases h2 : b.toNat < a.toNat
        · rw [if_pos h2] at h; cases h
        · rw [if_neg h2] at h
          have heq : a = b :=
            Char.ext (UInt32.ext (Nat.le_antisymm (Nat.le_of_not_lt h2) (Nat.le_of_not_lt h1)))
          subst heq
          exact List.Lex.cons (ih.mp h)
    · intro h
      cases h with
      | rel hlt =>
        simp only [lexLtChars]
        rw [if_pos ((hab a b).mp hlt)]
      | cons htl =>
        simp only [lexLtChars]
        rw [if_neg (lt_irrefl a.toNat), if_neg (lt_irrefl a.toNat)]
        exact ih.mpr htl

/-- The Boolean comparison backing `pySorted` is the `≤` of `String`. -/
theorem strLeB_iff_le (a b : String) : strLeB a b = true ↔ a ≤ b := by
  rw [String.le_iff_toList_le, ← not_lt]
  have hlex : (b.toList < a.toList) ↔ List.Lex (· < ·) b.data a.data := Iff.rfl
  rw [hlex]
  show (!(lexLtChars b.data a.data)) = true ↔ _
  rw [Bool.not_eq_true']
  constructor
  · intro h hc
    rw [(lexLtChars_iff_lex b.data a.data).mpr hc] at h
    cases h
  · intro h
    by_contra hc
    rw [Bool.not_eq_false] at hc
    exact h ((lexLtChars_iff_lex b.data a.data).mp hc)

/-- `pySorted` permutes its input. -/
theorem pySorted_perm (l : List String) : (pySorted l).Perm l :=
  List.perm_insertionSort _ l

/-- `pySorted` sorts ascending in the lexicographic `String` order. -/
theorem pySorted_sorted (l : List String) : List.Sorted (· ≤ ·) (pySorted l) := by
  haveI htot : IsTotal String (fun a b => strLeB a b = true) :=
    ⟨fun a b => by
      rcases le_total a b with h | h
      · exact Or.inl ((strLeB_iff_le a b).mpr h)
      · exact Or.inr ((strLeB_iff_le b a).mpr h)⟩
  haveI htr : IsTrans String (fun a b => strLeB a b = true) :=
    ⟨fun a b c hab hbc =>
      (strLeB_iff_le a c).mpr (le_trans ((strLeB_iff_le a b).mp hab)
        ((strLeB_iff_le b c).mp hbc))⟩
  exact (List.sorted_insertionSort _ l).imp fun h => (strLeB_iff_le _ _).mp h

/-! ## Registry lemmas -/

theorem tool_entry_name_as_mcp_tool (td : ToolDefinition) :
    tool_entry_name (as_mcp_tool td) = td.name := rfl

theorem jget_str_hasKey (kvs : List (String × Json)) (k : String) (m : String)
    (h : jget kvs k = .str m) : hasKey kvs k = true := by
  unfold jget jgetD at h
  unfold hasKey
  cases hl : lookupLast kvs k with
  | none => rw [hl] at h; exact Json.noConfusion h
  | some v => rfl

theorem findTool_isSome (reg : Registry) (n : String) :
    (findTool reg n).isSome = true ↔ n ∈ registryKeys reg := by
  induction reg with
  | nil => simp [findTool, registryKeys]
  | cons td l ih =>
    by_cases h : td.name = n
    · simp [findTool, registryKeys, List.find?_cons, h]
    · have : (decide (td.name = n)) = false := by simp [h]
      simp only [findTool, registryKeys, List.find?_cons, this, List.map_cons, List.mem_cons]
      rw [show (findTool l n).isSome = (l.find? fun td => td.name = n).isSome from rfl] at ih
      rw [ih]
      constructor
      · exact Or.inr
      · rintro (h' | h')
        · exact absurd h'.symm h
        · exact h'

theorem findTool_spec (reg : Registry) (n : String) (td : ToolDefinition)
    (h : findTool reg n = some td) : td ∈ reg ∧ td.name = n := by
  refine ⟨List.mem_of_find?_eq_some h, ?_⟩
  have := List.find?_some h
  exact of_decide_eq_true this

theorem findTool_nodup_self (reg : Registry) (td : ToolDefinition)
    (hnd : (registryKeys reg).Nodup) (hmem : td ∈ reg) :
    findTool reg td.name = some td := by
  induction reg with
  | nil => cases hmem
  | cons t l ih =>
    rcases List.mem_cons.mp hmem with h | h
    · subst h
      simp [findTool, List.find?_cons]
    · have hnd' : (registryKeys l).Nodup := (List.nodup_cons.mp hnd).2
      have hne : t.name ≠ td.name := by
        intro hc
        have : td.name ∈ registryKeys l := List.mem_map.mpr ⟨td, h, rfl⟩
        rw [← hc] at this
        exact (List.nodup_cons.mp hnd).1 this
      have : (decide (t.name = td.name)) = false := by simp [hne]
      simp only [findTool, List.find?_cons, this]
      exact ih hnd' h

theorem list_tools_names_aux (reg : Registry) :
    ∀ ns : List String, (∀ n ∈ ns, n ∈ registryKeys reg) →
      ((ns.filterMap fun n => (findTool reg n).map as_mcp_tool).map tool_entry_name) = ns := by
  intro ns
  induction ns with
  | nil => intro _; rfl
  | cons n l ih =>
    intro hmem
    have hn : n ∈ registryKeys reg := hmem n (List.mem_cons_self n l)
    obtain ⟨td, htd⟩ := Option.isSome_iff_exists.mp ((findTool_isSome reg n).mpr hn)
    have hname : td.name = n := (findTool_spec reg n td htd).2
    rw [List.filterMap_cons, htd]
    show tool_entry_name (as_mcp_tool td) ::
      ((l.filterMap fun x => (findTool reg x).map as_mcp_tool).map tool_entry_name) = n :: l
    rw [tool_entry_name_as_mcp_tool, hname,
      ih fun x hx => hmem x (List.mem_cons_of_mem n hx)]

/-- The listed names are exactly the sorted registry keys. -/
theorem list_tools_names (reg : Registry) :
    (list_tools reg).map tool_entry_name = pySorted (registryKeys reg) := by
  unfold list_tools
  exact list_tools_names_aux reg (pySorted (registryKeys reg))
    fun n hn => (pySorted_perm (registryKeys reg)).mem_iff.mp hn

theorem py_dict_get_or_empty_obj (kvs : List (String × Json)) (k : String) :
    py_dict_get (py_or_empty (.obj kvs)) k = .ok (jget kvs k) := by
  cases kvs with
  | nil => rfl
  | cons a l => rfl

theorem py_hash_check_ok (j : Json) (h : j.hashableB = true) :
    py_hash_check j = .ok () := by
  cases j with
  | null => rfl
  | bool b => rfl
  | num n => rfl
  | str s => rfl
  | arr xs => simp [Json.hashableB] at h
  | obj kvs => simp [Json.hashableB] at h

/-- C3: after startup registration, `tools/list` lists exactly the registry
key set sorted ascending; `list_tools` is a pure function of the immutable
registry (hence deterministic across calls); every listed entry renders a
registered definition (so its `inputSchema` is the registered schema, which
`register_tool` stores verbatim); and `tools/call` resolves exactly the
registered names: a registered name runs its handler, a hashable unknown
name fails with `KeyError` (`UnknownTool`), and an unhashable (array or
object) name is not accepted either — the membership test's hashing step
raises a `TypeError` that `call_tool` propagates. -/
theorem c3_registry_invariant (reg : Registry)
    (hnd : (registryKeys reg).Nodup) :
    ((list_tools reg).map tool_entry_name = pySorted (registryKeys reg)) ∧
    List.Sorted (· ≤ ·) ((list_tools reg).map tool_entry_name) ∧
    (∀ s : String, s ∈ (list_tools reg).map tool_entry_name ↔ s ∈ registryKeys reg) ∧
    (∀ e ∈ list_tools reg, ∃ td, td ∈ reg ∧ e = as_mcp_tool td) ∧
    (∀ td, td ∈ reg → as_mcp_tool td ∈ list_tools reg) ∧
    (∀ reg0 n d sch h reg1, register_tool reg0 n d sch h = .ok reg1 →
      reg1 = reg0 ++ [⟨n, d, sch, h⟩]) ∧
    (∀ s : String, (lookup_tool reg (.str s)).isSome = true ↔ s ∈ registryKeys reg) ∧
    (∀ nm args, nm.hashableB = true → lookup_tool reg nm = none →
      call_tool reg nm args = (.error (.keyError ("Unknown tool: " ++ nm.pyStr)), [])) ∧
    (∀ nm args e, py_hash_check nm = .error e →
      call_tool reg nm args = (.error e, [])) ∧
    (∀ nm td args, lookup_tool reg nm = some td →
      call_tool reg nm args = (td.handler (py_or_empty args), [(td.name, py_or_empty args)])) := by
  refine ⟨list_tools_names reg, ?_, ?_, ?_, ?_, ?_, ?_, ?_, ?_, ?_⟩
  · rw [list_tools_names reg]
    exact pySorted_sorted (registryKeys reg)
  · intro s
    rw [list_tools_names reg]
    exact (pySorted_perm (registryKeys reg)).mem_iff
  · intro e he
    unfold list_tools at he
    obtain ⟨n, _, hfe⟩ := List.mem_filterMap.mp he
    cases hft : findTool reg n with
    | none => rw [hft] at hfe; cases hfe
    | some td =>
      rw [hft] at hfe
      exact ⟨td, (findTool_spec reg n td hft).1, (Option.some.injEq _ _).mp hfe.symm⟩
  · intro td htd
    unfold list_tools
    refine List.mem_filterMap.mpr ⟨td.name, ?_, ?_⟩
    · exact (pySorted_perm (registryKeys reg)).mem_iff.mpr (List.mem_map.mpr ⟨td, htd, rfl⟩)
    · rw [findTool_nodup_self reg td hnd htd]; rfl
  · intro reg0 n d sch h reg1 hr
    unfold register_tool at hr
    split at hr
    · cases hr
    · exact ((Except.ok.injEq _ _).mp hr).symm
  · intro s
    exact findTool_isSome reg s
  · intro nm args hh hl
    unfold call_tool
    rw [py_hash_check_ok nm hh, hl]
  · intro nm args e he
    unfold call_tool
    rw [he]
  · intro nm td args hl
    cases nm with
    | str s =>
      unfold call_tool
      rw [hl]
      rfl
    | null => exact Option.noConfusion hl
    | bool b => exact Option.noConfusion hl
    | num n => exact Option.noConfusion hl
    | arr xs => exact Option.noConfusion hl
    | obj kvs => exact Option.noConfusion hl

/-- Witness for C3 at the startup registry of the two concrete tools. -/
theorem c3_registry_invariant_witness :
    (registryKeys sampleRegistry).Nodup ∧
    (list_tools sampleRegistry).map tool_entry_name =
      ["get_locale_date_time", "get_wikipedia_pages_json"] := by
  have h := (c3_registry_invariant sampleRegistry (by decide)).1
  refine ⟨by decide, ?_⟩
  rw [h]
  rfl

/-! ## Pipeline normalization lemmas -/

/-- For a request that passes the origin gate, the auth gate, the method
check, and parses, the endpoint is `handle_payload` on the parsed body. -/
theorem mcp_endpoint_dispatch (reg : Registry) (cfg : Config) (req : McpRequest)
    (payload : Json)
    (ho : origin_blockedB cfg req = false)
    (ha : is_authorized cfg req = none)
    (hm : req.httpMethod = "POST")
    (hb : req.body = .ok payload) :
    mcp_endpoint reg cfg req = handle_payload reg req.protocolVersionHeader payload := by
  unfold mcp_endpoint
  rw [ho, ha, hm, hb]
  simp

/-- A body that is an object with `jsonrpc == "2.0"` and a string `method`
reaches negotiation and then dispatch. -/
theorem handle_payload_valid (reg : Registry) (hv : Option String)
    (kvs : List (String × Json)) (m : String)
    (hj : isStr20 (jget kvs "jsonrpc") = true)
    (hm : jget kvs "method" = .str m) :
    handle_payload reg hv (.obj kvs) =
      (match negotiate_protocol_version hv m (jgetD kvs "params" (.obj [])) with
       | .error (.valueError d) =>
         (.ok ⟨400, some (jsonrpc_error (-32602) "Invalid params" (jget kvs "id")
           (some (.str d))), []⟩, [])
       | .error e => (.error e, [])
       | .ok protocolVersion =>
         if (jget kvs "id").isNull then
           (.ok ⟨202, none, [("MCP-Protocol-Version", protocolVersion)]⟩, [])
         else
           match handle_mcp_method reg m (jgetD kvs "params" (.obj []))
               (jget kvs "id") protocolVersion with
           | (.error e, tr) => (.error e, tr)
           | (.ok none, tr) =>
             (.ok ⟨202, none, [("MCP-Protocol-Version", protocolVersion)]⟩, tr)
           | (.ok (some p), tr) =>
             (.ok ⟨200, some p, [("MCP-Protocol-Version", protocolVersion)]⟩, tr)) := by
  simp only [handle_payload, jget_str_hasKey kvs "method" m hm, hm, hj, Bool.not_true,
    Bool.false_and, Bool.false_eq_true, if_false]

/-- The `tools/call` arm of the dispatcher in terms of `call_tool`. -/
theorem handle_tools_call (reg : Registry) (kvsP : List (String × Json))
    (requestId : Json) (pv : String) :
    handle_mcp_method reg "tools/call" (.obj kvsP) requestId pv =
      (match call_tool reg (jget kvsP "name") (jget kvsP "arguments") with
       | (.ok result, tr) => (.ok (some (jsonrpc_result result requestId)), tr)
       | (.error (.keyError m), tr) =>
         (.ok (some (jsonrpc_error (-32601) ("\x27" ++ m ++ "\x27") requestId none)), tr)
       | (.error (.valueError m), tr) =>
         (.ok (some (jsonrpc_error (-32602) "Invalid params" requestId
           (some (.str m)))), tr)
       | (.error e, tr) => (.error e, tr)) := by
  unfold handle_mcp_method
  rw [if_neg (by decide), if_neg (by decide), if_neg (by decide), if_pos rfl]
  unfold tools_call_branch
  rw [py_dict_get_or_empty_obj, py_dict_get_or_empty_obj]

/-- C4 counterexample: a `tools/call` whose `name` is the empty JSON object
— certainly not a registered name — is not answered with a `-32601`
envelope: the registry membership test hashes the name first, raising an
uncaught `TypeError` (unhashable type: dict) that propagates out of the
endpoint. -/
theorem c4_counterexample :
    registryKeys sampleRegistry = ["get_locale_date_time", "get_wikipedia_pages_json"] ∧
    mcp_endpoint sampleRegistry cfgOk (postReq none (.ok (.obj
      [("jsonrpc", .str "2.0"), ("method", .str "tools/call"),
       ("params", .obj [("name", .obj []), ("arguments", .obj [])]),
       ("id", .num 1)]))) =
      (.error (.typeError "unhashable type: \x27dict\x27"), []) :=
  ⟨rfl, rfl⟩

/-- C4 (amended): for `tools/call` with an object `params`, a **hashable**
unregistered name maps to `-32601` whatever the arguments, while an array
or object name makes the membership test raise an uncaught `TypeError`; a
handler `ValueError` maps to `-32602` with the failure message as `data`;
absent or null `arguments` reach the handler as the empty object; and the
`-32601` envelope is what the endpoint returns (status 200) for an
authenticated request. -/
theorem c4_tools_call_error_mapping (reg : Registry) (kvsP : List (String × Json))
    (requestId : Json) (pv : String) :
    ((jget kvsP "name").hashableB = true → lookup_tool reg (jget kvsP "name") = none →
      handle_mcp_method reg "tools/call" (.obj kvsP) requestId pv =
        (.ok (some (jsonrpc_error (-32601)
          ("\x27" ++ ("Unknown tool: " ++ (jget kvsP "name").pyStr) ++ "\x27")
          requestId none)), [])) ∧
    (∀ xs, jget kvsP "name" = .arr xs →
      handle_mcp_method reg "tools/call" (.obj kvsP) requestId pv =
        (.error (.typeError "unhashable type: \x27list\x27"), [])) ∧
    (∀ okvs, jget kvsP "name" = .obj okvs →
      handle_mcp_method reg "tools/call" (.obj kvsP) requestId pv =
        (.error (.typeError "unhashable type: \x27dict\x27"), [])) ∧
    (∀ td msg, lookup_tool reg (jget kvsP "name") = some td →
      td.handler (py_or_empty (jget kvsP "arguments")) = .error (.valueError msg) →
      handle_mcp_method reg "tools/call" (.obj kvsP) requestId pv =
        (.ok (some (jsonrpc_error (-32602) "Invalid params" requestId (some (.str msg)))),
         [(td.name, py_or_empty (jget kvsP "arguments"))])) ∧
    (∀ td, jget kvsP "arguments" = .null → lookup_tool reg (jget kvsP "name") = some td →
      (handle_mcp_method reg "tools/call" (.obj kvsP) requestId pv).2 =
        [(td.name, .obj [])]) ∧
    (∀ cfg req kvs, origin_blockedB cfg req = false → is_authorized cfg req = none →
      req.httpMethod = "POST" → req.body = .ok (.obj kvs) →
      isStr20 (jget kvs "jsonrpc") = true → jget kvs "method" = .str "tools/call" →
      jgetD kvs "params" (.obj []) = .obj kvsP → jget kvs "id" = requestId →
      requestId.isNull = false →
      negotiate_protocol_version req.protocolVersionHeader "tools/call" (.obj kvsP) = .ok pv →
      (jget kvsP "name").hashableB = true → lookup_tool reg (jget kvsP "name") = none →
      (mcp_endpoint reg cfg req).1 = .ok ⟨200, some (jsonrpc_error (-32601)
        ("\x27" ++ ("Unknown tool: " ++ (jget kvsP "name").pyStr) ++ "\x27")
        requestId none), [("MCP-Protocol-Version", pv)]⟩) := by
  have hA : (jget kvsP "name").hashableB = true →
      lookup_tool reg (jget kvsP "name") = none →
      handle_mcp_method reg "tools/call" (.obj kvsP) requestId pv =
        (.ok (some (jsonrpc_error (-32601)
          ("\x27" ++ ("Unknown tool: " ++ (jget kvsP "name").pyStr) ++ "\x27")
          requestId none)), []) := by
    intro hnh hl
    rw [handle_tools_call]
    unfold call_tool
    rw [py_hash_check_ok _ hnh, hl]
  refine ⟨hA, ?_, ?_, ?_, ?_, ?_⟩
  · intro xs hn
    have hct : call_tool reg (jget kvsP "name") (jget kvsP "arguments") =
        (.error (.typeError "unhashable type: \x27list\x27"), []) := by
      unfold call_tool
      rw [hn]
      rfl
    rw [handle_tools_call, hct]
  · intro okvs hn
    have hct : call_tool reg (jget kvsP "name") (jget kvsP "arguments") =
        (.error (.typeError "unhashable type: \x27dict\x27"), []) := by
      unfold call_tool
      rw [hn]
      rfl
    rw [handle_tools_call, hct]
  · intro td msg hl hh
    have hct : call_tool reg (jget kvsP "name") (jget kvsP "arguments") =
        (td.handler (py_or_empty (jget kvsP "arguments")),
         [(td.name, py_or_empty (jget kvsP "arguments"))]) := by
      have hnh : (jget kvsP "name").hashableB = true := by
        cases hn : jget kvsP "name" with
        | str s => rfl
        | null => rw [hn] at hl; exact Option.noConfusion hl
        | bool b => rw [hn] at hl; exact Option.noConfusion hl
        | num n => rw [hn] at hl; exact Option.noConfusion hl
        | arr xs => rw [hn] at hl; exact Option.noConfusion hl
        | obj okvs => rw [hn] at hl; exact Option.noConfusion hl
      unfold call_tool
      rw [py_hash_check_ok _ hnh, hl]
    rw [handle_tools_call, hct, hh]
  · intro td hargs hl
    have hct : call_tool reg (jget kvsP "name") (jget kvsP "arguments") =
        (td.handler (py_or_empty (jget kvsP "arguments")),
         [(td.name, py_or_empty (jget kvsP "arguments"))]) := by
      have hnh : (jget kvsP "name").hashableB = true := by
        cases hn : jget kvsP "name" with
        | str s => rfl
        | null => rw [hn] at hl; exact Option.noConfusion hl
        | bool b => rw [hn] at hl; exact Option.noConfusion hl
        | num n => rw [hn] at hl; exact Option.noConfusion hl
        | arr xs => rw [hn] at hl; exact Option.noConfusion hl
        | obj okvs => rw [hn] at hl; exact Option.noConfusion hl
      unfold call_tool
      rw [py_hash_check_ok _ hnh, hl]
    rw [handle_tools_call, hct, hargs]
    cases hh : td.handler (py_or_empty .null) with
    | ok r => rfl
    | error e => cases e <;> rfl
  · intro cfg req kvs ho ha hm hb hj hme hp hid hnull hneg hnh hl
    rw [mcp_endpoint_dispatch reg cfg req _ ho ha hm hb,
      handle_payload_valid reg req.protocolVersionHeader kvs "tools/call" hj hme, hp, hid,
      hneg, hnull]
    show (match handle_mcp_method reg "tools/call" (Json.obj kvsP) requestId pv with
      | (Except.error e, tr) => (Except.error e, tr)
      | (Except.ok none, tr) =>
        (Except.ok (HttpResponse.mk 202 none [("MCP-Protocol-Version", pv)]), tr)
      | (Except.ok (some p), tr) =>
        (Except.ok (HttpResponse.mk 200 (some p) [("MCP-Protocol-Version", pv)]), tr)).1 = _
    rw [hA hnh hl]

/-- Witness for C4 at concrete registries and `tools/call` payloads. -/
theorem c4_tools_call_error_mapping_witness :
    handle_mcp_method sampleRegistry "tools/call" (.obj [("name", .str "nope")]) (.num 7)
      "2025-06-18" =
      (.ok (some (jsonrpc_error (-32601) "\x27Unknown tool: nope\x27" (.num 7) none)), []) ∧
    handle_mcp_method sampleRegistry "tools/call" (.obj [("name", .arr [])]) (.num 2)
      "2025-06-18" = (.error (.typeError "unhashable type: \x27list\x27"), []) ∧
    handle_mcp_method valReg "tools/call"
      (.obj [("name", .str "get_locale_date_time"), ("arguments", .obj [])]) (.num 1)
      "2025-06-18" =
      (.ok (some (jsonrpc_error (-32602) "Invalid params" (.num 1)
        (some (.str "`locale` is required.")))), [("get_locale_date_time", .obj [])]) ∧
    (handle_mcp_method valReg "tools/call" (.obj [("name", .str "get_locale_date_time")])
      (.num 1) "2025-06-18").2 = [("get_locale_date_time", .obj [])] := by
  refine ⟨?_, ?_, ?_, ?_⟩
  · exact (c4_tools_call_error_mapping sampleRegistry [("name", .str "nope")]
      (.num 7) "2025-06-18").1 rfl rfl
  · exact (c4_tools_call_error_mapping sampleRegistry [("name", .arr [])]
      (.num 2) "2025-06-18").2.1 [] rfl
  · exact (c4_tools_call_error_mapping valReg
      [("name", .str "get_locale_date_time"), ("arguments", .obj [])] (.num 1)
      "2025-06-18").2.2.2.1
      ⟨"get_locale_date_time", dtDescription, dtSchema, failingHandler⟩
      "`locale` is required." rfl rfl
  · exact (c4_tools_call_error_mapping valReg [("name", .str "get_locale_date_time")]
      (.num 1) "2025-06-18").2.2.2.2.1
      ⟨"get_locale_date_time", dtDescription, dtSchema, failingHandler⟩ rfl rfl

/-! ## Protocol negotiation theorems -/

/-- C5 counterexample: an `MCP-Protocol-Version` header that is present with
the empty-string value is outside the supported set, yet the request is not
answered with a `-32602` error: negotiation falls back to the default and
the request succeeds (here a `notifications/initialized` call, answered
202). -/
theorem c5_counterexample :
    ("" ∉ SUPPORTED_PROTOCOL_VERSIONS) ∧
    mcp_endpoint sampleRegistry cfgOk (postReq (some "") (.ok (.obj
      [("jsonrpc", .str "2.0"), ("method", .str "notifications/initialized"),
       ("id", .num 1)]))) =
      (.ok ⟨202, none, [("MCP-Protocol-Version", "2025-06-18")]⟩, []) := by
  exact ⟨by decide, rfl⟩

/-- C5 (amended): negotiation as implemented.  A present **nonempty**
unsupported header value fails with the `ValueError` whose text names the
supported versions (mapped to `-32602` by the endpoint); a present nonempty
supported value is negotiated; an absent header defaults; for `initialize`
a truthy supported `params.protocolVersion` overrides the header-derived
value and a truthy unsupported one fails; empty-string values are treated
as absent. -/
theorem c5_negotiation_rules :
    (∀ v m p, v ∉ SUPPORTED_PROTOCOL_VERSIONS → v ≠ "" →
      negotiate_protocol_version (some v) m p =
        .error (.valueError (unsupportedHeaderMsg v))) ∧
    (∀ v m p, v ∈ SUPPORTED_PROTOCOL_VERSIONS → m ≠ "initialize" →
      negotiate_protocol_version (some v) m p = .ok v) ∧
    (∀ m p, m ≠ "initialize" →
      negotiate_protocol_version none m p = .ok DEFAULT_PROTOCOL_VERSION) ∧
    (∀ hv kvs w, (hv = none ∨ ∃ u, hv = some u ∧ u ∈ SUPPORTED_PROTOCOL_VERSIONS) →
      jget kvs "protocolVersion" = .str w → w ∈ SUPPORTED_PROTOCOL_VERSIONS →
      negotiate_protocol_version hv "initialize" (.obj kvs) = .ok w) ∧
    (∀ hv kvs w, (hv = none ∨ ∃ u, hv = some u ∧ u ∈ SUPPORTED_PROTOCOL_VERSIONS) →
      jget kvs "protocolVersion" = .str w → w ∉ SUPPORTED_PROTOCOL_VERSIONS → w ≠ "" →
      negotiate_protocol_version hv "initialize" (.obj kvs) =
        .error (.valueError (unsupportedInitMsg w))) ∧
    (∀ v, unsupportedHeaderMsg v =
      "Unsupported MCP-Protocol-Version header: " ++ v ++ supportedVersionsTail) ∧
    (∀ s, s ∈ SUPPORTED_PROTOCOL_VERSIONS → strContains supportedVersionsTail s = true) ∧
    (negotiate_protocol_version none "initialize"
      (.obj [("protocolVersion", .str "2024-11-05")]) = .ok "2024-11-05") ∧
    ((mcp_endpoint sampleRegistry cfgOk (postReq (some "1999-01-01") (.ok (.obj
        [("jsonrpc", .str "2.0"), ("method", .str "tools/list"), ("id", .num 1)])))).1 =
      .ok ⟨400, some (jsonrpc_error (-32602) "Invalid params" (.num 1)
        (some (.str (unsupportedHeaderMsg "1999-01-01")))), []⟩) := by
  have hsup_ne : ∀ v : String, v ∈ SUPPORTED_PROTOCOL_VERSIONS → v ≠ "" := by
    intro v hv
    fin_cases hv <;> decide
  refine ⟨?_, ?_, ?_, ?_, ?_, fun _ => rfl, ?_, rfl, rfl⟩
  · intro v m p hnot hne
    simp [negotiate_protocol_version, negotiate_header, negotiate_requested, hne, hnot]
  · intro v m p hmem hm
    simp [negotiate_protocol_version, negotiate_header, negotiate_requested, hsup_ne v hmem, hmem, hm]
  · intro m p hm
    simp [negotiate_protocol_version, negotiate_header, negotiate_requested, hm]
  · intro hv kvs w hcase hw hmem
    have hwne := hsup_ne w hmem
    rcases hcase with rfl | ⟨u, rfl, hu⟩
    · simp [negotiate_protocol_version, negotiate_header, negotiate_requested, py_hash_check, py_dict_get_or_empty_obj, hw, Json.truthy,
        Json.pyStr, hwne, hmem]
    · have hune := hsup_ne u hu
      simp [negotiate_protocol_version, negotiate_header, negotiate_requested, py_hash_check, py_dict_get_or_empty_obj, hw, Json.truthy,
        Json.pyStr, hwne, hmem, hune, hu]
  · intro hv kvs w hcase hw hnot hne
    rcases hcase with rfl | ⟨u, rfl, hu⟩
    · simp [negotiate_protocol_version, negotiate_header, negotiate_requested, py_hash_check, py_dict_get_or_empty_obj, hw, Json.truthy,
        Json.pyStr, hne, hnot]
    · have hune := hsup_ne u hu
      simp [negotiate_protocol_version, negotiate_header, negotiate_requested, py_hash_check, py_dict_get_or_empty_obj, hw, Json.truthy,
        Json.pyStr, hne, hnot, hune, hu]
  · intro s hs
    fin_cases hs <;> decide

/-- Witness for C5 at concrete headers and versions. -/
theorem c5_negotiation_rules_witness :
    negotiate_protocol_version (some "1999-01-01") "tools/list" .null =
      .error (.valueError (unsupportedHeaderMsg "1999-01-01")) ∧
    negotiate_protocol_version (some "2024-11-05") "tools/list" .null = .ok "2024-11-05" ∧
    negotiate_protocol_version (some "2025-03-26") "initialize"
      (.obj [("protocolVersion", .str "2024-11-05")]) = .ok "2024-11-05" := by
  refine ⟨?_, ?_, ?_⟩
  · exact c5_negotiation_rules.1 "1999-01-01" "tools/list" .null (by decide) (by decide)
  · exact c5_negotiation_rules.2.1 "2024-11-05" "tools/list" .null (by decide) (by decide)
  · exact c5_negotiation_rules.2.2.2.1 (some "2025-03-26")
      [("protocolVersion", .str "2024-11-05")] "2024-11-05"
      (Or.inr ⟨"2025-03-26", rfl, by decide⟩) rfl (by decide)

/-- C10 counterexample: with the header present but empty, an `initialize`
request carrying a supported `params.protocolVersion` negotiates that
version, not the server default — the claim's universal "the negotiated
version is the default" fails. -/
theorem c10_counterexample :
    negotiate_protocol_version (some "") "initialize"
      (.obj [("protocolVersion", .str "2024-11-05")]) = .ok "2024-11-05" ∧
    ("2024-11-05" : String) ≠ DEFAULT_PROTOCOL_VERSION :=
  ⟨rfl, by decide⟩

/-- C10 (amended): a present empty-string header is treated exactly like an
absent header — negotiation gives the same outcome as with no header at
all, and in particular (whenever the `initialize` override does not fire)
the negotiated version is the server default and the request is not
rejected. -/
theorem c10_empty_header_as_absent :
    (∀ m p, negotiate_protocol_version (some "") m p =
      negotiate_protocol_version none m p) ∧
    (∀ m p, m ≠ "initialize" →
      negotiate_protocol_version (some "") m p = .ok DEFAULT_PROTOCOL_VERSION) ∧
    (∀ kvs, (jget kvs "protocolVersion").truthy = false →
      negotiate_protocol_version (some "") "initialize" (.obj kvs) =
        .ok DEFAULT_PROTOCOL_VERSION) := by
  refine ⟨fun m p => rfl, ?_, ?_⟩
  · intro m p hm
    simp [negotiate_protocol_version, negotiate_header, negotiate_requested, hm]
  · intro kvs ht
    simp [negotiate_protocol_version, negotiate_header, negotiate_requested, py_hash_check, py_dict_get_or_empty_obj, ht]

/-- Witness for C10 at a non-`initialize` method and an override-free
`initialize` body. -/
theorem c10_empty_header_as_absent_witness :
    negotiate_protocol_version (some "") "tools/list" .null =
      .ok DEFAULT_PROTOCOL_VERSION ∧
    negotiate_protocol_version (some "") "initialize" (.obj []) =
      .ok DEFAULT_PROTOCOL_VERSION :=
  ⟨c10_empty_header_as_absent.2.1 "tools/list" .null (by decide),
   c10_empty_header_as_absent.2.2 [] rfl⟩

/-! ## Auth gate -/

theorem listIsPrefixB_append (n a b : List Char) (h : listIsPrefixB n a = true) :
    listIsPrefixB n (a ++ b) = true := by
  induction n generalizing a with
  | nil => rfl
  | cons c cs ih =>
    cases a with
    | nil => cases h
    | cons d ds =>
      simp only [listIsPrefixB, Bool.and_eq_true] at h
      simp only [List.cons_append, listIsPrefixB, Bool.and_eq_true]
      exact ⟨h.1, ih ds h.2⟩

theorem subListAt_append_left (n a b : List Char) (h : subListAt n a = true) :
    subListAt n (a ++ b) = true := by
  induction a with
  | nil =>
    have hn : n = [] := by
      cases n with
      | nil => rfl
      | cons c cs => simp [subListAt, List.isEmpty] at h
    subst hn
    cases b with
    | nil => rfl
    | cons c cs => simp [subListAt, listIsPrefixB]
  | cons c cs ih =>
    simp only [subListAt, Bool.or_eq_true] at h
    simp only [List.cons_append, subListAt, Bool.or_eq_true]
    rcases h with h | h
    · exact Or.inl (listIsPrefixB_append n (c :: cs) b h)
    · exact Or.inr (ih h)

theorem strContains_append_left (a b n : String) (h : strContains a n = true) :
    strContains (a ++ b) n = true := by
  have hd : (a ++ b).data = a.data ++ b.data := rfl
  unfold strContains
  rw [hd]
  exact subListAt_append_left n.data a.data b.data h

theorem intercalate_go_head : ∀ (xs : List String) (acc s : String),
    ∃ r, String.intercalate.go acc s xs = acc ++ r := by
  intro xs
  induction xs with
  | nil =>
    intro acc s
    refine ⟨"", ?_⟩
    rw [String.append_empty]
    rfl
  | cons b bs ih =>
    intro acc s
    obtain ⟨r, hr⟩ := ih (acc ++ s ++ b) s
    refine ⟨s ++ b ++ r, ?_⟩
    have hgo : String.intercalate.go acc s (b :: bs) =
        String.intercalate.go (acc ++ s ++ b) s bs := rfl
    rw [hgo, hr, String.append_assoc acc s b, String.append_assoc acc (s ++ b) r]

theorem intercalate_head (a s : String) (xs : List String) :
    ∃ r, String.intercalate s (a :: xs) = a ++ r :=
  intercalate_go_head xs a s

/-- Every challenge built by `_www_authenticate_header` opens with the
fixed realm element. -/
theorem www_auth_head (cfg : Config) (req : McpRequest) (e d : Option String) :
    ∃ r, www_authenticate_header cfg req e d = "Bearer realm=\"mcp\"" ++ r := by
  unfold www_authenticate_header
  exact intercalate_head "Bearer realm=\"mcp\"" ", " _

/-- Every challenge contains `realm="mcp"`. -/
theorem www_auth_realm (cfg : Config) (req : McpRequest) (e d : Option String) :
    strContains (www_authenticate_header cfg req e d) "realm=\"mcp\"" = true := by
  obtain ⟨r, hr⟩ := www_auth_head cfg req e d
  rw [hr]
  exact strContains_append_left "Bearer realm=\"mcp\"" r "realm=\"mcp\"" (by decide)

/-- C7 counterexample: a present-but-empty `Authorization` header is not of
the shape `Bearer <nonempty-token>` (it splits as `[""]`), yet the gate
answers it with the missing-header response tagged `invalid_token`, not
`invalid_request`. -/
theorem c7_counterexample :
    splitOnceSpace "" = [""] ∧
    is_authorized cfgOk reqEmptyAuth =
      some (bearer_error cfgOk reqEmptyAuth "Missing Authorization header." 401
        (some "invalid_token")) ∧
    strContains (www_authenticate_header cfgOk reqEmptyAuth (some "invalid_token")
      (some "Missing Authorization header.")) "error=\"invalid_request\"" = false ∧
    strContains (www_authenticate_header cfgOk reqEmptyAuth (some "invalid_token")
      (some "Missing Authorization header.")) "error=\"invalid_token\"" = true :=
  ⟨rfl, rfl, by decide, by decide⟩

/-- C7 (amended): the gate's rules in order — no configured token means a
500 whatever the credentials; a missing **or empty** header yields a 401
whose challenge contains `realm="mcp"` (tagged `invalid_token`); a present
nonempty header that does not split as a case-insensitive `Bearer` scheme
plus a nonempty token yields the challenge tagged `invalid_request`; a
well-shaped header with a non-matching token yields `invalid_token`. -/
theorem c7_auth_gate_rules (cfg : Config) (req : McpRequest) :
    (pyStrip cfg.mcpAuthToken = "" →
      is_authorized cfg req = some (auth_error 500
        "Server is not configured: MCP_AUTH_TOKEN is missing.") ∧
      (auth_error 500 "Server is not configured: MCP_AUTH_TOKEN is missing.").status = 500) ∧
    (pyStrip cfg.mcpAuthToken ≠ "" →
      (req.authorizationHeader = none ∨ req.authorizationHeader = some "") →
      is_authorized cfg req =
        some (bearer_error cfg req "Missing Authorization header." 401
          (some "invalid_token")) ∧
      (bearer_error cfg req "Missing Authorization header." 401
        (some "invalid_token")).status = 401 ∧
      strContains (www_authenticate_header cfg req (some "invalid_token")
        (some "Missing Authorization header.")) "realm=\"mcp\"" = true) ∧
    (∀ hd a b, pyStrip cfg.mcpAuthToken ≠ "" → req.authorizationHeader = some hd →
      hd ≠ "" → splitOnceSpace hd = [a, b] → (pyLower a ≠ "bearer" ∨ pyStrip b = "") →
      is_authorized cfg req = some (bearer_error cfg req
        "Expected Authorization: Bearer <token>." 401 (some "invalid_request"))) ∧
    (∀ hd a, pyStrip cfg.mcpAuthToken ≠ "" → req.authorizationHeader = some hd →
      hd ≠ "" → splitOnceSpace hd = [a] →
      is_authorized cfg req = some (bearer_error cfg req
        "Expected Authorization: Bearer <token>." 401 (some "invalid_request"))) ∧
    (∀ hd a b, pyStrip cfg.mcpAuthToken ≠ "" → req.authorizationHeader = some hd →
      hd ≠ "" → splitOnceSpace hd = [a, b] → pyLower a = "bearer" → pyStrip b ≠ "" →
      pyStrip b ≠ pyStrip cfg.mcpAuthToken →
      is_authorized cfg req = some (bearer_error cfg req "Invalid token." 401
        (some "invalid_token"))) := by
  refine ⟨?_, ?_, ?_, ?_, ?_⟩
  · intro h
    exact ⟨by simp [is_authorized, h], rfl⟩
  · intro hne hcase
    refine ⟨?_, rfl, www_auth_realm cfg req (some "invalid_token")
      (some "Missing Authorization header.")⟩
    rcases hcase with hh | hh <;> simp [is_authorized, hne, hh]
  · intro hd a b hne hh hhd hsp hbad
    rcases hbad with hbad | hbad
    · simp [is_authorized, hne, hh, hhd, hsp, hbad]
    · simp [is_authorized, hne, hh, hhd, hsp, hbad]
  · intro hd a hne hh hhd hsp
    simp [is_authorized, hne, hh, hhd, hsp]
  · intro hd a b hne hh hhd hsp hlow hpb hmm
    simp [is_authorized, hne, hh, hhd, hsp, hlow, hpb, hmm]

/-- Witness for C7 at concrete configurations and headers. -/
theorem c7_auth_gate_rules_witness :
    is_authorized ⟨"", "", ""⟩ reqDoubleSpace =
      some (auth_error 500 "Server is not configured: MCP_AUTH_TOKEN is missing.") ∧
    is_authorized cfgOk reqNoAuth =
      some (bearer_error cfgOk reqNoAuth "Missing Authorization header." 401
        (some "invalid_token")) ∧
    strContains (www_authenticate_header cfgOk reqNoAuth (some "invalid_token")
      (some "Missing Authorization header.")) "realm=\"mcp\"" = true ∧
    is_authorized cfgAbc reqTokenScheme =
      some (bearer_error cfgAbc reqTokenScheme "Expected Authorization: Bearer <token>."
        401 (some "invalid_request")) ∧
    is_authorized cfgAbc reqWrongToken =
      some (bearer_error cfgAbc reqWrongToken "Invalid token." 401
        (some "invalid_token")) := by
  refine ⟨((c7_auth_gate_rules ⟨"", "", ""⟩ reqDoubleSpace).1 rfl).1, ?_, ?_, ?_, ?_⟩
  · exact ((c7_auth_gate_rules cfgOk reqNoAuth).2.1 (by decide) (Or.inl rfl)).1
  · exact ((c7_auth_gate_rules cfgOk reqNoAuth).2.1 (by decide) (Or.inl rfl)).2.2
  · exact (c7_auth_gate_rules cfgAbc reqTokenScheme).2.2.1 "Token abc" "Token" "abc"
      (by decide) rfl (by decide) rfl (Or.inl (by decide))
  · exact (c7_auth_gate_rules cfgAbc reqWrongToken).2.2.2.2 "Bearer wrong" "Bearer" "wrong"
      (by decide) rfl (by decide) rfl (by decide) (by decide) (by decide)

/-- C8 counterexample: the header `Bearer  abc` (two spaces) deviates from
the exact `Bearer <token>` single-space shape — it splits at the first
space into `["Bearer", " abc"]` and the remainder ` abc` is not
byte-for-byte the expected token — yet authentication succeeds, because the
code strips whitespace from the remainder before comparing. -/
theorem c8_counterexample :
    splitOnceSpace "Bearer  abc" = ["Bearer", " abc"] ∧
    (" abc" : String) ≠ "abc" ∧
    pyStrip cfgAbc.mcpAuthToken = "abc" ∧
    is_authorized cfgAbc reqDoubleSpace = none :=
  ⟨rfl, by decide, rfl, rfl⟩

/-- C8 (amended): with a token configured and a nonempty header presented,
authentication succeeds **iff** the header splits at its first space into a
case-insensitive `bearer` scheme and a remainder that is nonempty after
whitespace-stripping and whose stripped value equals the stripped expected
token; a shape failure is tagged `invalid_request` and a stripped-token
mismatch `invalid_token`. -/
theorem c8_auth_exact_shape (cfg : Config) (req : McpRequest) (hd : String)
    (hne : pyStrip cfg.mcpAuthToken ≠ "") (hh : req.authorizationHeader = some hd)
    (hhd : hd ≠ "") :
    (is_authorized cfg req = none ↔
      ∃ a b, splitOnceSpace hd = [a, b] ∧ pyLower a = "bearer" ∧ pyStrip b ≠ "" ∧
        pyStrip b = pyStrip cfg.mcpAuthToken) ∧
    (∀ a b, splitOnceSpace hd = [a, b] → (pyLower a ≠ "bearer" ∨ pyStrip b = "") →
      is_authorized cfg req = some (bearer_error cfg req
        "Expected Authorization: Bearer <token>." 401 (some "invalid_request"))) ∧
    (∀ a b, splitOnceSpace hd = [a, b] → pyLower a = "bearer" → pyStrip b ≠ "" →
      pyStrip b ≠ pyStrip cfg.mcpAuthToken →
      is_authorized cfg req = some (bearer_error cfg req "Invalid token." 401
        (some "invalid_token"))) := by
  refine ⟨?_, ?_, ?_⟩
  · constructor
    · intro hsucc
      cases hsp : splitOnceSpace hd with
      | nil => exfalso; simp [is_authorized, hne, hh, hhd, hsp] at hsucc
      | cons a t =>
        cases t with
        | nil => exfalso; simp [is_authorized, hne, hh, hhd, hsp] at hsucc
        | cons b t2 =>
          cases t2 with
          | nil =>
            by_cases hlow : pyLower a = "bearer"
            · by_cases hpb : pyStrip b = ""
              · exfalso; simp [is_authorized, hne, hh, hhd, hsp, hpb] at hsucc
              · by_cases heq : pyStrip b = pyStrip cfg.mcpAuthToken
                · exact ⟨a, b, rfl, hlow, hpb, heq⟩
                · exfalso
                  simp [is_authorized, hne, hh, hhd, hsp, hlow, hpb, heq] at hsucc
            · exfalso; simp [is_authorized, hne, hh, hhd, hsp, hlow] at hsucc
          | cons c t3 => exfalso; simp [is_authorized, hne, hh, hhd, hsp] at hsucc
    · rintro ⟨a, b, hsp, hlow, hpb, heq⟩
      simp [is_authorized, hne, hh, hhd, hsp, hlow, hpb, heq]
  · intro a b hsp hbad
    rcases hbad with hbad | hbad <;> simp [is_authorized, hne, hh, hhd, hsp, hbad]
  · intro a b hsp hlow hpb hmm
    simp [is_authorized, hne, hh, hhd, hsp, hlow, hpb, hmm]

/-- Witness for C8: a correctly shaped header with the matching token is
accepted; the wrong token and a wrong scheme are rejected with their tags. -/
theorem c8_auth_exact_shape_witness :
    is_authorized cfgOk (postReq none (.error ())) = none ∧
    is_authorized cfgAbc reqWrongToken =
      some (bearer_error cfgAbc reqWrongToken "Invalid token." 401 (some "invalid_token")) ∧
    is_authorized cfgAbc reqTokenScheme =
      some (bearer_error cfgAbc reqTokenScheme "Expected Authorization: Bearer <token>."
        401 (some "invalid_request")) := by
  refine ⟨?_, ?_, ?_⟩
  · exact (c8_auth_exact_shape cfgOk (postReq none (.error ())) "Bearer secret"
      (by decide) rfl (by decide)).1.mpr ⟨"Bearer", "secret", rfl, rfl, by decide, rfl⟩
  · exact (c8_auth_exact_shape cfgAbc reqWrongToken "Bearer wrong" (by decide) rfl
      (by decide)).2.2 "Bearer" "wrong" rfl (by decide) (by decide) (by decide)
  · exact (c8_auth_exact_shape cfgAbc reqTokenScheme "Token abc" (by decide) rfl
      (by decide)).2.1 "Token" "abc" rfl (Or.inl (by decide))

/-! ## Endpoint-level classification -/

theorem py_dict_get_obj (kvs : List (String × Json)) (k : String) :
    py_dict_get (.obj kvs) k = .ok (jget kvs k) := rfl

theorem json_obj_of_isObjB (j : Json) (h : j.isObjB = true) : ∃ kvs, j = .obj kvs := by
  cases j with
  | obj kvs => exact ⟨kvs, rfl⟩
  | null => simp [Json.isObjB] at h
  | bool b => simp [Json.isObjB] at h
  | num n => simp [Json.isObjB] at h
  | str s => simp [Json.isObjB] at h
  | arr xs => simp [Json.isObjB] at h

theorem negotiate_header_no_fault (hv : Option String) :
    (∃ v, negotiate_header hv = .ok v) ∨
    (∃ d, negotiate_header hv = .error (.valueError d)) := by
  rcases hv with _ | v
  · exact Or.inl ⟨_, rfl⟩
  · by_cases h1 : v = ""
    · subst h1
      exact Or.inl ⟨_, rfl⟩
    · by_cases h2 : v ∈ SUPPORTED_PROTOCOL_VERSIONS
      · refine Or.inl ⟨v, ?_⟩
        simp [negotiate_header, h1, h2]
      · refine Or.inr ⟨unsupportedHeaderMsg v, ?_⟩
        simp [negotiate_header, h1, h2]

theorem negotiate_requested_no_fault (rv : Json) (nv : String)
    (hh : rv.truthy = false ∨ rv.hashableB = true) :
    (∃ v, negotiate_requested rv nv = .ok v) ∨
    (∃ d, negotiate_requested rv nv = .error (.valueError d)) := by
  by_cases ht : rv.truthy = true
  · have hhb : rv.hashableB = true := by
      rcases hh with h | h
      · rw [h] at ht
        exact absurd ht (by simp)
      · exact h
    cases rv with
    | str s =>
      have key : negotiate_requested (.str s) nv =
          (if s ∈ SUPPORTED_PROTOCOL_VERSIONS then .ok s
           else .error (.valueError (unsupportedInitMsg (Json.str s).pyStr))) := by
        unfold negotiate_requested
        rw [if_pos ht]
        rfl
      rw [key]
      by_cases hs : s ∈ SUPPORTED_PROTOCOL_VERSIONS
      · refine Or.inl ⟨s, ?_⟩
        rw [if_pos hs]
      · refine Or.inr ⟨unsupportedInitMsg (Json.str s).pyStr, ?_⟩
        rw [if_neg hs]
    | null =>
      refine Or.inr ⟨unsupportedInitMsg (Json.null).pyStr, ?_⟩
      unfold negotiate_requested
      rw [if_pos ht]
      rfl
    | bool b =>
      refine Or.inr ⟨unsupportedInitMsg (Json.bool b).pyStr, ?_⟩
      unfold negotiate_requested
      rw [if_pos ht]
      rfl
    | num n =>
      refine Or.inr ⟨unsupportedInitMsg (Json.num n).pyStr, ?_⟩
      unfold negotiate_requested
      rw [if_pos ht]
      rfl
    | arr xs => simp [Json.hashableB] at hhb
    | obj kvs => simp [Json.hashableB] at hhb
  · refine Or.inl ⟨nv, ?_⟩
    unfold negotiate_requested
    rw [if_neg ht]

/-- With a dict-like `params` whose truthy `protocolVersion` (if `m` is
`initialize`) is hashable, negotiation either succeeds or raises only a
(caught) `ValueError` — never an `AttributeError` or `TypeError`. -/
theorem negotiate_no_fault (hv : Option String) (m : String) (p : Json)
    (kvsP : List (String × Json)) (hkvs : py_or_empty p = .obj kvsP)
    (hpv : m = "initialize" → (jget kvsP "protocolVersion").truthy = false ∨
      (jget kvsP "protocolVersion").hashableB = true) :
    (∃ v, negotiate_protocol_version hv m p = .ok v) ∨
    (∃ d, negotiate_protocol_version hv m p = .error (.valueError d)) := by
  rcases negotiate_header_no_fault hv with ⟨v, hok⟩ | ⟨d, herr⟩
  · have key : negotiate_protocol_version hv m p =
        (if m = "initialize" then
          match py_dict_get (py_or_empty p) "protocolVersion" with
          | .error e => .error e
          | .ok rv => negotiate_requested rv v
        else .ok v) := by
      unfold negotiate_protocol_version
      rw [hok]
    rw [key]
    by_cases hm : m = "initialize"
    · rw [if_pos hm]
      rw [hkvs, py_dict_get_obj]
      exact negotiate_requested_no_fault (jget kvsP "protocolVersion") v (hpv hm)
    · rw [if_neg hm]
      exact Or.inl ⟨v, rfl⟩
  · have key : negotiate_protocol_version hv m p = .error (.valueError d) := by
      unfold negotiate_protocol_version
      rw [herr]
    rw [key]
    exact Or.inr ⟨d, rfl⟩

theorem tools_call_branch_eq (reg : Registry) (params : Json) (requestId : Json)
    (kvsP : List (String × Json)) (hkvs : py_or_empty params = .obj kvsP) :
    tools_call_branch reg params requestId =
      (match call_tool reg (jget kvsP "name") (jget kvsP "arguments") with
       | (.ok result, tr) => (.ok (some (jsonrpc_result result requestId)), tr)
       | (.error (.keyError m), tr) =>
         (.ok (some (jsonrpc_error (-32601) ("\x27" ++ m ++ "\x27") requestId none)), tr)
       | (.error (.valueError m), tr) =>
         (.ok (some (jsonrpc_error (-32602) "Invalid params" requestId
           (some (.str m)))), tr)
       | (.error e, tr) => (.error e, tr)) := by
  unfold tools_call_branch
  rw [hkvs, py_dict_get_obj kvsP "name", py_dict_get_obj kvsP "arguments"]

theorem lookup_tool_mem (reg : Registry) (nm : Json) (td : ToolDefinition)
    (h : lookup_tool reg nm = some td) : td ∈ reg := by
  cases nm with
  | str s => exact (findTool_spec reg s td h).1
  | null => exact Option.noConfusion h
  | bool b => exact Option.noConfusion h
  | num n => exact Option.noConfusion h
  | arr xs => exact Option.noConfusion h
  | obj kvs => exact Option.noConfusion h

/-- With benign handlers and a hashable name, `call_tool` only produces
benign outcomes. -/
theorem call_tool_benign (reg : Registry) (nm args : Json)
    (res : Except PyErr Json) (tr : List ToolCall)
    (hben : handlers_benign reg) (hnm : nm.hashableB = true)
    (hct : call_tool reg nm args = (res, tr)) :
    benignResult res := by
  unfold call_tool at hct
  rw [py_hash_check_ok nm hnm] at hct
  cases hlt : lookup_tool reg nm with
  | none =>
    rw [hlt] at hct
    injection hct with h1 _
    rw [← h1]
    trivial
  | some td =>
    rw [hlt] at hct
    injection hct with h1 _
    rw [← h1]
    exact hben td (lookup_tool_mem reg nm td hlt) (py_or_empty args)

/-- With benign handlers, a dict-like `params`, and a hashable
`params.name` when the method is `tools/call`, the dispatcher never
faults: the outcome is always `.ok`. -/
theorem handle_mcp_method_no_fault (reg : Registry) (m : String) (params : Json)
    (rid : Json) (pv : String) (kvsP : List (String × Json))
    (hben : handlers_benign reg)
    (hkvs : py_or_empty params = .obj kvsP)
    (hname : m = "tools/call" → (jget kvsP "name").hashableB = true) :
    ∃ out tr, handle_mcp_method reg m params rid pv = (.ok out, tr) := by
  by_cases h1 : m = "initialize"
  · subst h1
    exact ⟨_, _, rfl⟩
  by_cases h2 : m = "notifications/initialized"
  · subst h2
    exact ⟨_, _, rfl⟩
  by_cases h3 : m = "tools/list"
  · subst h3
    exact ⟨_, _, rfl⟩
  by_cases h4 : m = "tools/call"
  · subst h4
    have hnb : (jget kvsP "name").hashableB = true := hname rfl
    have hh : handle_mcp_method reg "tools/call" params rid pv =
        tools_call_branch reg params rid := rfl
    rw [hh, tools_call_branch_eq reg params rid kvsP hkvs]
    rcases hct : call_tool reg (jget kvsP "name") (jget kvsP "arguments") with ⟨res, tr⟩
    cases res with
    | ok r => exact ⟨_, _, rfl⟩
    | error e =>
      cases e with
      | valueError msg => exact ⟨_, _, rfl⟩
      | keyError msg => exact ⟨_, _, rfl⟩
      | attributeError msg =>
        exact absurd (call_tool_benign reg _ _ _ _ hben hnb hct) (fun hc => hc)
      | typeError msg =>
        exact absurd (call_tool_benign reg _ _ _ _ hben hnb hct) (fun hc => hc)
  have hu : handle_mcp_method reg m params rid pv =
      (.ok (some (jsonrpc_error (-32601) ("Method not found: " ++ m) rid none)), []) := by
    unfold handle_mcp_method
    rw [if_neg h1, if_neg h2, if_neg h3, if_neg h4]
  exact ⟨_, _, hu⟩

/-- Whenever the dispatcher answers without fault, the answer is the empty
body, a result envelope, or an error envelope echoing the request id. -/
theorem handle_mcp_method_shape (reg : Registry) (m : String) (params : Json)
    (rid : Json) (pv : String) (out : Option Json) (tr : List ToolCall)
    (h : handle_mcp_method reg m params rid pv = (.ok out, tr)) :
    out = none ∨ (∃ r, out = some (jsonrpc_result r rid)) ∨
    (∃ c msg d, out = some (jsonrpc_error c msg rid d)) := by
  by_cases h1 : m = "initialize"
  · subst h1
    have : handle_mcp_method reg "initialize" params rid pv =
        (.ok (some (jsonrpc_result (initResult pv) rid)), []) := rfl
    rw [this] at h
    injection h with ha _
    injection ha with hc
    exact Or.inr (Or.inl ⟨initResult pv, hc.symm⟩)
  by_cases h2 : m = "notifications/initialized"
  · subst h2
    have : handle_mcp_method reg "notifications/initialized" params rid pv =
        (.ok none, []) := rfl
    rw [this] at h
    injection h with ha _
    injection ha with hc
    exact Or.inl hc.symm
  by_cases h3 : m = "tools/list"
  · subst h3
    have : handle_mcp_method reg "tools/list" params rid pv =
        (.ok (some (jsonrpc_result (.obj [("tools", .arr (list_tools reg))]) rid)), []) := rfl
    rw [this] at h
    injection h with ha _
    injection ha with hc
    exact Or.inr (Or.inl ⟨_, hc.symm⟩)
  by_cases h4 : m = "tools/call"
  · subst h4
    have hh : handle_mcp_method reg "tools/call" params rid pv =
        tools_call_branch reg params rid := rfl
    rw [hh] at h
    cases hn : py_dict_get (py_or_empty params) "name" with
    | error e =>
      have hb : tools_call_branch reg params rid = (.error e, []) := by
        unfold tools_call_branch
        rw [hn]
      rw [hb] at h
      injection h with ha _
      exact Except.noConfusion ha
    | ok nv =>
      cases ha' : py_dict_get (py_or_empty params) "arguments" with
      | error e =>
        have hb : tools_call_branch reg params rid = (.error e, []) := by
          unfold tools_call_branch
          rw [hn, ha']
        rw [hb] at h
        injection h with ha _
        exact Except.noConfusion ha
      | ok av =>
        have hb : tools_call_branch reg params rid =
            (match call_tool reg nv av with
             | (.ok result, tr) => (.ok (some (jsonrpc_result result rid)), tr)
             | (.error (.keyError m), tr) =>
               (.ok (some (jsonrpc_error (-32601) ("\x27" ++ m ++ "\x27") rid none)), tr)
             | (.error (.valueError m), tr) =>
               (.ok (some (jsonrpc_error (-32602) "Invalid params" rid
                 (some (.str m)))), tr)
             | (.error e, tr) => (.error e, tr)) := by
          unfold tools_call_branch
          rw [hn, ha']
        rw [hb] at h
        rcases hct : call_tool reg nv av with ⟨res, tr'⟩
        rw [hct] at h
        cases res with
        | ok r =>
          injection h with hx _
          injection hx with hc
          exact Or.inr (Or.inl ⟨r, hc.symm⟩)
        | error e =>
          cases e with
          | valueError msg =>
            injection h with hx _
            injection hx with hc
            exact Or.inr (Or.inr ⟨-32602, "Invalid params", some (.str msg), hc.symm⟩)
          | keyError msg =>
            injection h with hx _
            injection hx with hc
            exact Or.inr (Or.inr ⟨-32601, "\x27" ++ msg ++ "\x27", none, hc.symm⟩)
          | attributeError msg =>
            injection h with hx _
            exact Except.noConfusion hx
          | typeError msg =>
            injection h with hx _
            exact Except.noConfusion hx
  have hu : handle_mcp_method reg m params rid pv =
      (.ok (some (jsonrpc_error (-32601) ("Method not found: " ++ m) rid none)), []) := by
    unfold handle_mcp_method
    rw [if_neg h1, if_neg h2, if_neg h3, if_neg h4]
  rw [hu] at h
  injection h with ha _
  injection ha with hc
  exact Or.inr (Or.inr ⟨-32601, "Method not found: " ++ m, none, hc.symm⟩)

/-- Every parsed body is answered with one of the three terminal outputs,
provided the `params` field is dict-like, the body-derived membership
probes are hashable, and handlers only raise catchable errors. -/
theorem handle_payload_terminal (reg : Registry) (hv : Option String) (payload : Json)
    (hben : handlers_benign reg) (hp : params_field_okB payload = true)
    (hmp : membership_probes_okB payload = true) :
    TerminalOk (handle_payload reg hv payload).1 := by
  cases payload with
  | null =>
    exact ⟨_, rfl, Or.inr (Or.inr ⟨-32600, "Invalid Request", .null,
      some (.str "Expected a JSON object."), rfl⟩)⟩
  | bool b =>
    exact ⟨_, rfl, Or.inr (Or.inr ⟨-32600, "Invalid Request", .null,
      some (.str "Expected a JSON object."), rfl⟩)⟩
  | num n =>
    exact ⟨_, rfl, Or.inr (Or.inr ⟨-32600, "Invalid Request", .null,
      some (.str "Expected a JSON object."), rfl⟩)⟩
  | str s =>
    exact ⟨_, rfl, Or.inr (Or.inr ⟨-32600, "Invalid Request", .null,
      some (.str "Expected a JSON object."), rfl⟩)⟩
  | arr xs =>
    exact ⟨_, rfl, Or.inr (Or.inr ⟨-32600, "Invalid Request", .null,
      some (.str "Expected a JSON object."), rfl⟩)⟩
  | obj kvs =>
    have hp' : (py_or_empty (jgetD kvs "params" (.obj []))).isObjB = true := hp
    cases hro : (!hasKey kvs "method" && (hasKey kvs "result" || hasKey kvs "error")) with
    | true =>
      have key : handle_payload reg hv (.obj kvs) = (.ok ⟨202, none, []⟩, []) := by
        simp only [handle_payload]
        rw [hro]
        rfl
      rw [key]
      exact ⟨_, rfl, Or.inl rfl⟩
    | false =>
      cases hm : jget kvs "method" with
      | str m =>
        cases hj : isStr20 (jget kvs "jsonrpc") with
        | false =>
          have key : handle_payload reg hv (.obj kvs) =
              (.ok ⟨400, some (jsonrpc_error (-32600) "Invalid Request"
                (jget kvs "id") none), []⟩, []) := by
            simp only [handle_payload]
            rw [hro, hm, hj]
            rfl
          rw [key]
          exact ⟨_, rfl, Or.inr (Or.inr ⟨-32600, "Invalid Request", jget kvs "id",
            none, rfl⟩)⟩
        | true =>
          have key := handle_payload_valid reg hv kvs m hj hm
          obtain ⟨kvsP, hkvsP⟩ := json_obj_of_isObjB _ hp'
          have hmp2 : ((m != "tools/call" || (jget kvsP "name").hashableB) &&
              (m != "initialize" || !(jget kvsP "protocolVersion").truthy ||
                (jget kvsP "protocolVersion").hashableB)) = true := by
            have key3 : membership_probes_okB (.obj kvs) =
                ((m != "tools/call" || (jget kvsP "name").hashableB) &&
                 (m != "initialize" || !(jget kvsP "protocolVersion").truthy ||
                   (jget kvsP "protocolVersion").hashableB)) := by
              simp only [membership_probes_okB]
              rw [hkvsP, hm]
            rw [← key3]
            exact hmp
          simp only [Bool.and_eq_true, Bool.or_eq_true, bne_iff_ne, ne_eq,
            Bool.not_eq_true'] at hmp2
          have hname : m = "tools/call" → (jget kvsP "name").hashableB = true := by
            intro hmc
            rcases hmp2.1 with h | h
            · exact absurd hmc h
            · exact h
          have hpv : m = "initialize" → (jget kvsP "protocolVersion").truthy = false ∨
              (jget kvsP "protocolVersion").hashableB = true := by
            intro hmi
            rcases hmp2.2 with (h | h) | h
            · exact absurd hmi h
            · exact Or.inl h
            · exact Or.inr h
          rcases negotiate_no_fault hv m (jgetD kvs "params" (.obj [])) kvsP hkvsP hpv with
            ⟨pv, hneg⟩ | ⟨d, hneg⟩
          · have key2 : handle_payload reg hv (.obj kvs) =
                (if (jget kvs "id").isNull then
                  (.ok ⟨202, none, [("MCP-Protocol-Version", pv)]⟩, [])
                else
                  match handle_mcp_method reg m (jgetD kvs "params" (.obj []))
                      (jget kvs "id") pv with
                  | (.error e, tr) => (.error e, tr)
                  | (.ok none, tr) =>
                    (.ok ⟨202, none, [("MCP-Protocol-Version", pv)]⟩, tr)
                  | (.ok (some p), tr) =>
                    (.ok ⟨200, some p, [("MCP-Protocol-Version", pv)]⟩, tr)) := by
              rw [key, hneg]
            rw [key2]
            cases hid : (jget kvs "id").isNull with
            | true =>
              exact ⟨_, rfl, Or.inl rfl⟩
            | false =>
              obtain ⟨out, tr, hout⟩ := handle_mcp_method_no_fault reg m
                (jgetD kvs "params" (.obj [])) (jget kvs "id") pv kvsP hben hkvsP hname
              rw [hout]
              rcases handle_mcp_method_shape reg m (jgetD kvs "params" (.obj []))
                  (jget kvs "id") pv out tr hout with hsh | ⟨r, hsh⟩ | ⟨c, msg, d, hsh⟩
              · subst hsh
                exact ⟨_, rfl, Or.inl rfl⟩
              · subst hsh
                exact ⟨_, rfl, Or.inr (Or.inl ⟨r, jget kvs "id", rfl⟩)⟩
              · subst hsh
                exact ⟨_, rfl, Or.inr (Or.inr ⟨c, msg, jget kvs "id", d, rfl⟩)⟩
          · have key2 : handle_payload reg hv (.obj kvs) =
                (.ok ⟨400, some (jsonrpc_error (-32602) "Invalid params"
                  (jget kvs "id") (some (.str d))), []⟩, []) := by
              rw [key, hneg]
            rw [key2]
            exact ⟨_, rfl, Or.inr (Or.inr ⟨-32602, "Invalid params", jget kvs "id",
              some (.str d), rfl⟩)⟩
      | null =>
        cases hj : isStr20 (jget kvs "jsonrpc") with
        | false =>
          have key : handle_payload reg hv (.obj kvs) =
              (.ok ⟨400, some (jsonrpc_error (-32600) "Invalid Request"
                (jget kvs "id") none), []⟩, []) := by
            simp only [handle_payload]
            rw [hro, hm, hj]
            rfl
          rw [key]
          exact ⟨_, rfl, Or.inr (Or.inr ⟨-32600, "Invalid Request", jget kvs "id",
            none, rfl⟩)⟩
        | true =>
          have key : handle_payload reg hv (.obj kvs) =
              (.ok ⟨400, some (jsonrpc_error (-32600) "Invalid Request"
                (jget kvs "id") none), []⟩, []) := by
            simp only [handle_payload]
            rw [hro, hm, hj]
            rfl
          rw [key]
          exact ⟨_, rfl, Or.inr (Or.inr ⟨-32600, "Invalid Request", jget kvs "id",
            none, rfl⟩)⟩
      | bool b =>
        cases hj : isStr20 (jget kvs "jsonrpc") with
        | false =>
          have key : handle_payload reg hv (.obj kvs) =
              (.ok ⟨400, some (jsonrpc_error (-32600) "Invalid Request"
                (jget kvs "id") none), []⟩, []) := by
            simp only [handle_payload]
            rw [hro, hm, hj]
            rfl
          rw [key]
          exact ⟨_, rfl, Or.inr (Or.inr ⟨-32600, "Invalid Request", jget kvs "id",
            none, rfl⟩)⟩
        | true =>
          have key : handle_payload reg hv (.obj kvs) =
              (.ok ⟨400, some (jsonrpc_error (-32600) "Invalid Request"
                (jget kvs "id") none), []⟩, []) := by
            simp only [handle_payload]
            rw [hro, hm, hj]
            rfl
          rw [key]
          exact ⟨_, rfl, Or.inr (Or.inr ⟨-32600, "Invalid Request", jget kvs "id",
            none, rfl⟩)⟩
      | num n =>
        cases hj : isStr20 (jget kvs "jsonrpc") with
        | false =>
          have key : handle_payload reg hv (.obj kvs) =
              (.ok ⟨400, some (jsonrpc_error (-32600) "Invalid Request"
                (jget kvs "id") none), []⟩, []) := by
            simp only [handle_payload]
            rw [hro, hm, hj]
            rfl
          rw [key]
          exact ⟨_, rfl, Or.inr (Or.inr ⟨-32600, "Invalid Request", jget kvs "id",
            none, rfl⟩)⟩
        | true =>
          have key : handle_payload reg hv (.obj kvs) =
              (.ok ⟨400, some (jsonrpc_error (-32600) "Invalid Request"
                (jget kvs "id") none), []⟩, []) := by
            simp only [handle_payload]
            rw [hro, hm, hj]
            rfl
          rw [key]
          exact ⟨_, rfl, Or.inr (Or.inr ⟨-32600, "Invalid Request", jget kvs "id",
            none, rfl⟩)⟩
      | arr xs =>
        cases hj : isStr20 (jget kvs "jsonrpc") with
        | false =>
          have key : handle_payload reg hv (.obj kvs) =
              (.ok ⟨400, some (jsonrpc_error (-32600) "Invalid Request"
                (jget kvs "id") none), []⟩, []) := by
            simp only [handle_payload]
            rw [hro, hm, hj]
            rfl
          rw [key]
          exact ⟨_, rfl, Or.inr (Or.inr ⟨-32600, "Invalid Request", jget kvs "id",
            none, rfl⟩)⟩
        | true =>
          have key : handle_payload reg hv (.obj kvs) =
              (.ok ⟨400, some (jsonrpc_error (-32600) "Invalid Request"
                (jget kvs "id") none), []⟩, []) := by
            simp only [handle_payload]
            rw [hro, hm, hj]
            rfl
          rw [key]
          exact ⟨_, rfl, Or.inr (Or.inr ⟨-32600, "Invalid Request", jget kvs "id",
            none, rfl⟩)⟩
      | obj okvs =>
        cases hj : isStr20 (jget kvs "jsonrpc") with
        | false =>
          have key : handle_payload reg hv (.obj kvs) =
              (.ok ⟨400, some (jsonrpc_error (-32600) "Invalid Request"
                (jget kvs "id") none), []⟩, []) := by
            simp only [handle_payload]
            rw [hro, hm, hj]
            rfl
          rw [key]
          exact ⟨_, rfl, Or.inr (Or.inr ⟨-32600, "Invalid Request", jget kvs "id",
            none, rfl⟩)⟩
        | true =>
          have key : handle_payload reg hv (.obj kvs) =
              (.ok ⟨400, some (jsonrpc_error (-32600) "Invalid Request"
                (jget kvs "id") none), []⟩, []) := by
            simp only [handle_payload]
            rw [hro, hm, hj]
            rfl
          rw [key]
          exact ⟨_, rfl, Or.inr (Or.inr ⟨-32600, "Invalid Request", jget kvs "id",
            none, rfl⟩)⟩

/-- C1 counterexample: an authenticated `tools/call` request whose `params`
is the JSON string `"x"` makes `(params or {}).get("name")` raise an
uncaught `AttributeError` that propagates past the dispatcher; and an
authenticated `initialize` request whose `params.protocolVersion` is a
nonempty JSON array makes the supported-set membership test raise an
uncaught `TypeError` (unhashable type: list). -/
theorem c1_counterexample :
    (mcp_endpoint sampleRegistry cfgOk (postReq none (.ok (.obj
      [("jsonrpc", .str "2.0"), ("method", .str "tools/call"), ("params", .str "x"),
       ("id", .num 1)])))).1 =
      .error (.attributeError "\x27str\x27 object has no attribute \x27get\x27") ∧
    (mcp_endpoint sampleRegistry cfgOk (postReq none (.ok (.obj
      [("jsonrpc", .str "2.0"), ("method", .str "initialize"),
       ("params", .obj [("protocolVersion", .arr [.str "2025-06-18"])]),
       ("id", .num 1)])))).1 =
      .error (.typeError "unhashable type: \x27list\x27") :=
  ⟨rfl, rfl⟩

/-- C1 (amended): for every authenticated POST body whose `params` field is
a JSON object (or absent/falsy), whose `params.name` is hashable when the
method is `tools/call`, whose truthy `params.protocolVersion` is hashable
when the method is `initialize`, and with tool handlers that raise only the
caught `ValueError`/`KeyError` exceptions, the endpoint's output is one of
the three terminal forms — a no-body acknowledgement, a result envelope, or
an error envelope.  A truthy non-object `params` instead raises an uncaught
`AttributeError`, and an array/object membership probe an uncaught
`TypeError`. -/
theorem c1_terminal_outputs (reg : Registry) (cfg : Config) (req : McpRequest)
    (hben : handlers_benign reg)
    (ho : origin_blockedB cfg req = false)
    (ha : is_authorized cfg req = none)
    (hpost : req.httpMethod = "POST")
    (hp : ∀ payload, req.body = .ok payload → params_field_okB payload = true)
    (hmp : ∀ payload, req.body = .ok payload → membership_probes_okB payload = true) :
    TerminalOk (mcp_endpoint reg cfg req).1 := by
  cases hb : req.body with
  | error u =>
    have key : mcp_endpoint reg cfg req =
        (.ok ⟨400, some (jsonrpc_error (-32700) "Parse error" .null none), []⟩, []) := by
      unfold mcp_endpoint
      rw [ho, ha, hpost, hb]
      simp
    rw [key]
    exact ⟨_, rfl, Or.inr (Or.inr ⟨-32700, "Parse error", .null, none, rfl⟩)⟩
  | ok payload =>
    rw [mcp_endpoint_dispatch reg cfg req payload ho ha hpost hb]
    exact handle_payload_terminal reg req.protocolVersionHeader payload hben
      (hp payload hb) (hmp payload hb)

/-- Witness for C1 at the concrete startup registry and a `tools/list`
request. -/
theorem c1_terminal_outputs_witness :
    TerminalOk (mcp_endpoint sampleRegistry cfgOk (postReq none (.ok (.obj
      [("jsonrpc", .str "2.0"), ("method", .str "tools/list"), ("id", .num 1)])))).1 := by
  apply c1_terminal_outputs
  · intro td htd args
    simp only [sampleRegistry, List.mem_cons, List.not_mem_nil, or_false] at htd
    rcases htd with rfl | rfl <;> trivial
  · rfl
  · rfl
  · rfl
  · intro payload hpl
    injection hpl with h
    rw [← h]
    rfl
  · intro payload hpl
    injection hpl with h
    rw [← h]
    rfl

/-- C2 counterexample: an authenticated, fully valid JSON-RPC notification
(`id` absent, recognized method, `jsonrpc == "2.0"`) sent with an
unsupported `MCP-Protocol-Version` header receives a 400 JSON-RPC error
envelope, not the 202 empty acknowledgement. -/
theorem c2_counterexample :
    mcp_endpoint sampleRegistry cfgOk (postReq (some "1999-01-01") (.ok (.obj
      [("jsonrpc", .str "2.0"), ("method", .str "tools/list")]))) =
      (.ok ⟨400, some (jsonrpc_error (-32602) "Invalid params" .null
        (some (.str (unsupportedHeaderMsg "1999-01-01")))), []⟩, []) ∧
    "tools/list" ∈ recognizedMethods ∧
    (jget [("jsonrpc", Json.str "2.0"), ("method", Json.str "tools/list")] "id").isNull
      = true :=
  ⟨rfl, by decide, rfl⟩

/-- C2 (amended): an authenticated POST whose body is a JSON object with
`jsonrpc == "2.0"`, a recognized method, and an absent-or-null `id`, and
whose protocol negotiation succeeds, is answered 202 with an empty body and
never with a result or error envelope. -/
theorem c2_notification_202 (reg : Registry) (cfg : Config) (req : McpRequest)
    (kvs : List (String × Json)) (m pv : String)
    (ho : origin_blockedB cfg req = false)
    (ha : is_authorized cfg req = none)
    (hpost : req.httpMethod = "POST")
    (hb : req.body = .ok (.obj kvs))
    (hj : isStr20 (jget kvs "jsonrpc") = true)
    (hm : jget kvs "method" = .str m)
    (hrec : m ∈ recognizedMethods)
    (hid : (jget kvs "id").isNull = true)
    (hneg : negotiate_protocol_version req.protocolVersionHeader m
      (jgetD kvs "params" (.obj [])) = .ok pv) :
    mcp_endpoint reg cfg req = (.ok ⟨202, none, [("MCP-Protocol-Version", pv)]⟩, []) := by
  rw [mcp_endpoint_dispatch reg cfg req _ ho ha hpost hb,
    handle_payload_valid reg req.protocolVersionHeader kvs m hj hm, hneg, hid]
  simp

/-- Witness for C2 at a concrete authenticated notification. -/
theorem c2_notification_202_witness :
    mcp_endpoint sampleRegistry cfgOk (postReq none (.ok (.obj
      [("jsonrpc", .str "2.0"), ("method", .str "tools/list")]))) =
      (.ok ⟨202, none, [("MCP-Protocol-Version", "2025-06-18")]⟩, []) := by
  exact c2_notification_202 sampleRegistry cfgOk _ _ "tools/list" "2025-06-18"
    rfl rfl rfl rfl rfl rfl (by decide) rfl rfl

/-- C6 counterexample: the acknowledgement of an inbound response object
(`result` present, no `method`) is issued before negotiation and carries no
`MCP-Protocol-Version` header at all — its header list is empty. -/
theorem c6_counterexample :
    mcp_endpoint sampleRegistry cfgOk (postReq none (.ok (.obj
      [("result", .obj []), ("id", .num 1)]))) = (.ok ⟨202, none, []⟩, []) ∧
    hasKey [("result", Json.obj []), ("id", Json.num 1)] "method" = false ∧
    hasKey [("result", Json.obj []), ("id", Json.num 1)] "result" = true :=
  ⟨rfl, rfl, rfl⟩

/-- C6 (amended): every response the endpoint produces after protocol
negotiation succeeds carries the negotiated version in its
`MCP-Protocol-Version` header — the 202 notification acknowledgement, the
202 no-body dispatch outcome, and the 200 envelope alike. -/
theorem c6_version_header_echo (reg : Registry) (cfg : Config) (req : McpRequest)
    (kvs : List (String × Json)) (m pv : String)
    (ho : origin_blockedB cfg req = false)
    (ha : is_authorized cfg req = none)
    (hpost : req.httpMethod = "POST")
    (hb : req.body = .ok (.obj kvs))
    (hj : isStr20 (jget kvs "jsonrpc") = true)
    (hm : jget kvs "method" = .str m)
    (hneg : negotiate_protocol_version req.protocolVersionHeader m
      (jgetD kvs "params" (.obj [])) = .ok pv) :
    ∀ resp, (mcp_endpoint reg cfg req).1 = .ok resp →
      ("MCP-Protocol-Version", pv) ∈ resp.headers := by
  have key : mcp_endpoint reg cfg req =
      (if (jget kvs "id").isNull then
        (.ok ⟨202, none, [("MCP-Protocol-Version", pv)]⟩, ([] : List ToolCall))
      else
        match handle_mcp_method reg m (jgetD kvs "params" (.obj []))
            (jget kvs "id") pv with
        | (.error e, tr) => (.error e, tr)
        | (.ok none, tr) => (.ok ⟨202, none, [("MCP-Protocol-Version", pv)]⟩, tr)
        | (.ok (some p), tr) => (.ok ⟨200, some p, [("MCP-Protocol-Version", pv)]⟩, tr)) := by
    rw [mcp_endpoint_dispatch reg cfg req _ ho ha hpost hb,
      handle_payload_valid reg req.protocolVersionHeader kvs m hj hm, hneg]
  intro resp hr
  rw [key] at hr
  cases hid : (jget kvs "id").isNull with
  | true =>
    rw [if_pos hid] at hr
    injection hr with h
    rw [← h]
    simp
  | false =>
    rw [if_neg (by rw [hid]; exact Bool.false_ne_true)] at hr
    rcases hout : handle_mcp_method reg m (jgetD kvs "params" (.obj []))
        (jget kvs "id") pv with ⟨res, tr⟩
    rw [hout] at hr
    cases res with
    | error e => exact Except.noConfusion hr
    | ok o =>
      cases o with
      | none =>
        injection hr with h
        rw [← h]
        simp
      | some p =>
        injection hr with h
        rw [← h]
        simp

/-- Witness for C6 at a concrete dispatched request. -/
theorem c6_version_header_echo_witness :
    ("MCP-Protocol-Version", "2025-06-18") ∈
      (HttpResponse.mk 202 none [("MCP-Protocol-Version", "2025-06-18")]).headers := by
  exact c6_version_header_echo sampleRegistry cfgOk (postReq none (.ok (.obj
      [("jsonrpc", .str "2.0"), ("method", .str "notifications/initialized"),
       ("id", .num 1)])))
    [("jsonrpc", .str "2.0"), ("method", .str "notifications/initialized"), ("id", .num 1)]
    "notifications/initialized" "2025-06-18" rfl rfl rfl rfl rfl rfl rfl
    (HttpResponse.mk 202 none [("MCP-Protocol-Version", "2025-06-18")]) rfl

/-- C9 counterexample: a valid authenticated `tools/call` notification
naming a registered tool is acknowledged 202 with an **empty** invocation
trace — the handler is never executed — while the identical request with an
`id` records the invocation. -/
theorem c9_counterexample :
    (lookup_tool sampleRegistry (.str "get_locale_date_time")).isSome = true ∧
    mcp_endpoint sampleRegistry cfgOk (postReq none (.ok (.obj
      [("jsonrpc", .str "2.0"), ("method", .str "tools/call"),
       ("params", .obj [("name", .str "get_locale_date_time"),
         ("arguments", .obj [("locale", .str "Copenhagen")])])]))) =
      (.ok ⟨202, none, [("MCP-Protocol-Version", "2025-06-18")]⟩, []) ∧
    (mcp_endpoint sampleRegistry cfgOk (postReq none (.ok (.obj
      [("jsonrpc", .str "2.0"), ("method", .str "tools/call"),
       ("params", .obj [("name", .str "get_locale_date_time"),
         ("arguments", .obj [("locale", .str "Copenhagen")])]), ("id", .num 1)])))).2 =
      [("get_locale_date_time", .obj [("locale", .str "Copenhagen")])] :=
  ⟨rfl, rfl, rfl⟩

/-- C9 (amended): a request that passes validity checks and negotiation,
has `id` absent or null, and targets `tools/call` on a registered tool is
answered 202 with an empty body **without** executing the tool handler:
the endpoint returns before dispatch and its invocation trace is empty. -/
theorem c9_notification_skips_side_effect (reg : Registry) (cfg : Config)
    (req : McpRequest) (kvs kvsP : List (String × Json)) (td : ToolDefinition)
    (pv : String)
    (ho : origin_blockedB cfg req = false)
    (ha : is_authorized cfg req = none)
    (hpost : req.httpMethod = "POST")
    (hb : req.body = .ok (.obj kvs))
    (hj : isStr20 (jget kvs "jsonrpc") = true)
    (hm : jget kvs "method" = .str "tools/call")
    (hp : jgetD kvs "params" (.obj []) = .obj kvsP)
    (htool : lookup_tool reg (jget kvsP "name") = some td)
    (hid : (jget kvs "id").isNull = true)
    (hneg : negotiate_protocol_version req.protocolVersionHeader "tools/call"
      (.obj kvsP) = .ok pv) :
    mcp_endpoint reg cfg req = (.ok ⟨202, none, [("MCP-Protocol-Version", pv)]⟩, []) ∧
    (mcp_endpoint reg cfg req).2 = [] := by
  have key : mcp_endpoint reg cfg req =
      (.ok ⟨202, none, [("MCP-Protocol-Version", pv)]⟩, []) := by
    rw [mcp_endpoint_dispatch reg cfg req _ ho ha hpost hb,
      handle_payload_valid reg req.protocolVersionHeader kvs "tools/call" hj hm, hp,
      hneg, hid]
    simp
  exact ⟨key, by rw [key]⟩

/-- Witness for C9 at the startup registry. -/
theorem c9_notification_skips_side_effect_witness :
    mcp_endpoint sampleRegistry cfgOk (postReq none (.ok (.obj
      [("jsonrpc", .str "2.0"), ("method", .str "tools/call"),
       ("params", .obj [("name", .str "get_locale_date_time")])]))) =
      (.ok ⟨202, none, [("MCP-Protocol-Version", "2025-06-18")]⟩, []) := by
  exact (c9_notification_skips_side_effect sampleRegistry cfgOk
    (postReq none (.ok (.obj [("jsonrpc", .str "2.0"), ("method", .str "tools/call"),
      ("params", .obj [("name", .str "get_locale_date_time")])])))
    [("jsonrpc", .str "2.0"), ("method", .str "tools/call"),
      ("params", .obj [("name", .str "get_locale_date_time")])]
    [("name", .str "get_locale_date_time")]
    ⟨"get_locale_date_time", dtDescription, dtSchema, stubHandler⟩ "2025-06-18"
    rfl rfl rfl rfl rfl rfl rfl rfl rfl rfl).1
